import Mathlib

/-!
# python-swf-typed: verification of the execution-state replay engine

Shallow embedding of `src/swf_typed/_state.py` (the `_StateBuilder` fold and
`build_state`), together with the supporting data types from
`src/swf_typed/_executions.py`, `src/swf_typed/_activities.py` and
`src/swf_typed/_workflows.py`.

Python's mutable entity objects (one `TaskState` object aliased by both the
snapshot's `tasks` list and the `_tasks` correlation dict) are embedded with an
explicit arena: each builder owns an arena (list) of entity records, and both
the snapshot's ordered collections and the correlation tables hold indices into
the arena, so mutation through a correlation-table reference is visible through
the snapshot list exactly as in the source, including across a snapshot
replacement by a second execution-started event.

Timestamps (`datetime.datetime`) and durations are embedded as `Nat`; the fold
only stores and copies them.  Python attribute errors (reading `execution` or
`_latest_decision_event_id` before assignment), `KeyError` from dict lookups and
the explicitly raised `LookupError`s are embedded as an error type returned
through `Except`; `KeyError` is a `LookupError` subclass in Python, which the
predicate `BuildError.isLookup` records.
-/

namespace SwfTyped

/-- Modelled from the spec: timeout classification carried by timed-out events
(`_history.TimeoutType`; `_history.py` is not under `src/`).  The replay engine
only stores it, so it is embedded as an opaque wrapper. -/
structure TimeoutType where
  value : String
deriving DecidableEq, Repr, Inhabited

/-- `_activities.ActivityId`: activity type name and version. -/
structure ActivityId where
  name : String
  version : String
deriving DecidableEq, Repr, Inhabited

/-- Modelled from the spec: workflow type reference carried by child-execution
initiation events (the source annotates it `_workflows.WorkflowId`; the nearest
declared type, `_workflows.WorkflowTypeReference`, is name + version). -/
structure WorkflowId where
  name : String
  version : String
deriving DecidableEq, Repr, Inhabited

/-- `_executions.ExecutionId`: workflow id plus run id. -/
structure ExecutionId where
  id : String
  run_id : String
deriving DecidableEq, Repr, Inhabited

/-- `_executions.ChildExecutionTerminationPolicy`. -/
inductive ChildExecutionTerminationPolicy
  | terminate
  | request_cancel
  | abandon
deriving DecidableEq, Repr, Inhabited

/-- `_executions.ExecutionConfiguration`.  Timeouts are embedded as
`Option Nat` (seconds; `none` for Python `None`). -/
structure ExecutionConfiguration where
  timeout : Option Nat
  decision_task_timeout : Option Nat
  decision_task_list : String
  decision_task_priority : Int
  child_execution_policy_on_termination : ChildExecutionTerminationPolicy
  lambda_iam_role_arn : Option String := none
deriving DecidableEq, Repr, Inhabited

/-- Modelled from the spec: effective task configuration, "merged from
scheduling-time overrides" (`_tasks.TaskConfiguration`; `_tasks.py` is not
under `src/`).  The replay engine only stores it, so it is embedded as an
opaque wrapper. -/
structure TaskConfiguration where
  value : String
deriving DecidableEq, Repr, Inhabited

/-- `_state.TaskStatus`. -/
inductive TaskStatus
  | scheduled
  | started
  | completed
  | failed
  | cancelled
  | timed_out
deriving DecidableEq, Repr, Inhabited

/-- `_state.TimerStatus`. -/
inductive TimerStatus
  | started
  | fired
  | cancelled
deriving DecidableEq, Repr, Inhabited

/-- `_executions.ExecutionStatus`.  In the source `open` and `started` share
the value `"OPEN"`, so they are a single enum member; the single constructor
`started` embeds both. -/
inductive ExecutionStatus
  | started
  | completed
  | failed
  | cancelled
  | terminated
  | continued_as_new
  | timed_out
deriving DecidableEq, Repr, Inhabited

/-- `_state.TaskState`. -/
structure TaskState where
  id : String
  status : TaskStatus
  activity : ActivityId
  configuration : TaskConfiguration
  scheduled : Nat
  started : Option Nat := none
  ended : Option Nat := none
  input : Option String := none
  worker_identity : Option String := none
  cancel_requested : Bool := false
  result : Option String := none
  timeout_type : Option TimeoutType := none
  failure_reason : Option String := none
  stop_details : Option String := none
  decider_control : Option String := none
deriving DecidableEq, Repr, Inhabited

/-- `_state.TaskState.has_ended`. -/
def TaskState.has_ended (t : TaskState) : Bool :=
  !(t.status = TaskStatus.scheduled ∨ t.status = TaskStatus.started : Bool)

/-- `_state.ChildExecutionState`. -/
structure ChildExecutionState where
  execution : ExecutionId
  workflow : WorkflowId
  status : ExecutionStatus
  configuration : ExecutionConfiguration
  started : Nat
  ended : Option Nat := none
  input : Option String := none
  result : Option String := none
  timeout_type : Option TimeoutType := none
  failure_reason : Option String := none
  stop_details : Option String := none
  decider_control : Option String := none
deriving DecidableEq, Repr, Inhabited

/-- `_state.TimerState` (the source spells the duration field `duraction`). -/
structure TimerState where
  id : String
  status : TimerStatus
  duraction : Nat
  started : Nat
  ended : Option Nat := none
  input : Option String := none
  decider_control : Option String := none
deriving DecidableEq, Repr, Inhabited

/-- `_state.SignalState`.  The source's `is_new` field is a closure capturing
the local copy `latest_decision_event_id` of the builder's scalar at the moment
the signal event is folded; the embedding stores that captured value in
`decision_event_id`, and `SignalState.is_new` below evaluates the closure
against a builder. -/
structure SignalState where
  name : String
  received : Nat
  decision_event_id : Nat
  input : Option String := none
deriving DecidableEq, Repr, Inhabited

/-- `_state.ExecutionState`: the resolved snapshot returned to the caller, with
entity records dereferenced from the builder's arenas. -/
structure ExecutionState where
  status : ExecutionStatus
  configuration : ExecutionConfiguration
  started : Nat
  ended : Option Nat := none
  tasks : List TaskState := []
  child_executions : List ChildExecutionState := []
  timers : List TimerState := []
  signals : List SignalState := []
  input : Option String := none
  cancel_requested : Bool := false
  result : Option String := none
  failure_reason : Option String := none
  stop_details : Option String := none
deriving DecidableEq, Repr, Inhabited

/-- The history event model.  Modelled from the spec (§4.1) and from the field
accesses in `_state.py`: `_history.py` is not under `src/`.  Every variant
carries its event identifier `id` and occurrence timestamp `occured` (the
source's spelling); the remaining fields are exactly those `_state.py` reads.
`unrecognised` stands for every variant with no modelled effect (e.g. a
decision-task *scheduled* event), which the `elif` chain of
`_StateBuilder._process_event` silently skips. -/
inductive Event
  | decisionTaskCompleted (id occured : Nat)
  | workflowExecutionStarted (id occured : Nat)
      (execution_configuration : ExecutionConfiguration)
      (execution_input : Option String)
  | workflowExecutionCompleted (id occured : Nat) (execution_result : Option String)
  | workflowExecutionFailed (id occured : Nat) (reason details : Option String)
  | workflowExecutionCancelled (id occured : Nat) (details : Option String)
  | workflowExecutionTerminated (id occured : Nat) (reason details : Option String)
  | workflowExecutionTimedOut (id occured : Nat)
  | workflowExecutionCancelRequested (id occured : Nat)
  | activityTaskScheduled (id occured : Nat) (task_id : String)
      (activity : ActivityId) (task_configuration : TaskConfiguration)
      (task_input : Option String) (control : Option String)
  | activityTaskStarted (id occured : Nat) (task_scheduled_event_id : Nat)
      (worker_identity : Option String)
  | activityTaskCompleted (id occured : Nat) (task_scheduled_event_id : Nat)
      (task_result : Option String)
  | activityTaskFailed (id occured : Nat) (task_scheduled_event_id : Nat)
      (reason details : Option String)
  | activityTaskCancelled (id occured : Nat) (task_scheduled_event_id : Nat)
      (details : Option String)
  | activityTaskTimedOut (id occured : Nat) (task_scheduled_event_id : Nat)
      (timeout_type : TimeoutType) (details : Option String)
  | activityTaskCancelRequested (id occured : Nat) (task_id : String)
  | startChildWorkflowExecutionInitiated (id occured : Nat)
      (workflow : WorkflowId) (execution_configuration : ExecutionConfiguration)
      (execution_input : Option String) (control : Option String)
  | childWorkflowExecutionStarted (id occured : Nat)
      (execution_initiated_event_id : Nat) (execution : ExecutionId)
  | childWorkflowExecutionCompleted (id occured : Nat)
      (execution_initiated_event_id : Nat) (execution_result : Option String)
  | childWorkflowExecutionFailed (id occured : Nat)
      (execution_initiated_event_id : Nat) (reason details : Option String)
  | childWorkflowExecutionCancelled (id occured : Nat)
      (execution_initiated_event_id : Nat) (details : Option String)
  | childWorkflowExecutionTerminated (id occured : Nat)
      (execution_initiated_event_id : Nat)
  | childWorkflowExecutionTimedOut (id occured : Nat)
      (execution_initiated_event_id : Nat)
  | timerStarted (id occured : Nat) (timer_id : String) (timer_duration : Nat)
      (control : Option String)
  | timerFired (id occured : Nat) (timer_started_event_id : Nat)
  | timerCancelled (id occured : Nat) (timer_started_event_id : Nat)
  | workflowExecutionSignaled (id occured : Nat) (signal_name : String)
      (signal_input : Option String)
  | unrecognised (id occured : Nat)
deriving DecidableEq, Repr, Inhabited

/-- The errors the fold can raise.  `keyError` is a Python `KeyError` from a
correlation-dict subscript, `lookupError*` the explicitly raised
`LookupError`s, `attributeError` an `AttributeError` from reading a
never-assigned builder attribute.  `KeyError` subclasses `LookupError` in
Python, recorded by `BuildError.isLookup`. -/
inductive BuildError
  | keyError (key : Nat)
  | lookupErrorStr (key : String)
  | lookupErrorNat (key : Nat)
  | attributeError (attr : String)
deriving DecidableEq, Repr, Inhabited

/-- Is the error a Python `LookupError` (`KeyError` included)? -/
def BuildError.isLookup : BuildError → Bool
  | .keyError _ => true
  | .lookupErrorStr _ => true
  | .lookupErrorNat _ => true
  | .attributeError _ => false

/-- The fields of a `StartChildWorkflowExecutionInitiatedEvent` as stored in
the builder's `_child_execution_initiation_events` list (the source stores the
event object itself; these are the fields later read from it). -/
structure InitiationEvent where
  id : Nat
  occured : Nat
  workflow : WorkflowId
  execution_configuration : ExecutionConfiguration
  execution_input : Option String
  control : Option String
deriving DecidableEq, Repr, Inhabited

/-- The snapshot under construction (`_state.ExecutionState` as owned by the
builder): the ordered entity collections hold arena indices, mirroring Python's
lists of shared mutable objects. -/
structure ExecutionShell where
  status : ExecutionStatus
  configuration : ExecutionConfiguration
  started : Nat
  ended : Option Nat := none
  task_refs : List Nat := []
  child_refs : List Nat := []
  timer_refs : List Nat := []
  signals : List SignalState := []
  input : Option String := none
  cancel_requested : Bool := false
  result : Option String := none
  failure_reason : Option String := none
  stop_details : Option String := none
deriving DecidableEq, Repr, Inhabited

/-- `_state._StateBuilder`'s mutable attributes.  `execution` and
`_latest_decision_event_id` are unassigned after `__init__`, embedded as
`Option` with `none` for "attribute not set".  The correlation dicts `_tasks`,
`_child_executions`, `_timers` are embedded as association lists, newest
binding first (so `List.lookup` sees the latest binding, like dict
assignment); values are arena indices. -/
structure StateBuilder where
  execution : Option ExecutionShell := none
  task_arena : List TaskState := []
  child_arena : List ChildExecutionState := []
  timer_arena : List TimerState := []
  tasks : List (Nat × Nat) := []
  child_executions : List (Nat × Nat) := []
  child_execution_initiation_events : List InitiationEvent := []
  timers : List (Nat × Nat) := []
  latest_decision_event_id : Option Nat := none
deriving DecidableEq, Repr, Inhabited

/-- Replace the element at index `i` by `f` applied to it; out-of-range indices
leave the list unchanged (unreachable for indices produced by the builder). -/
def listModify {α : Type} : List α → Nat → (α → α) → List α
  | [], _, _ => []
  | x :: xs, 0, f => f x :: xs
  | x :: xs, n + 1, f => x :: listModify xs n f

/-- Mutate the snapshot's top-level fields (`self.execution.…  = …`); reading
`self.execution` before the execution-started event raises `AttributeError`. -/
def StateBuilder.modifyExecution (b : StateBuilder) (f : ExecutionShell → ExecutionShell) :
    Except BuildError StateBuilder :=
  match b.execution with
  | none => .error (.attributeError "execution")
  | some ex => .ok { b with execution := some (f ex) }

/-- `task = self._tasks[eventId]; f(task)`: dict lookup (KeyError on a missing
key), then in-place mutation of the shared task object. -/
def StateBuilder.modifyTask (b : StateBuilder) (eventId : Nat) (f : TaskState → TaskState) :
    Except BuildError StateBuilder :=
  match b.tasks.lookup eventId with
  | none => .error (.keyError eventId)
  | some i => .ok { b with task_arena := listModify b.task_arena i f }

/-- `execution = self._child_executions[eventId]; f(execution)`. -/
def StateBuilder.modifyChildExecution (b : StateBuilder) (eventId : Nat)
    (f : ChildExecutionState → ChildExecutionState) : Except BuildError StateBuilder :=
  match b.child_executions.lookup eventId with
  | none => .error (.keyError eventId)
  | some i => .ok { b with child_arena := listModify b.child_arena i f }

/-- `timer = self._timers[eventId]; f(timer)`. -/
def StateBuilder.modifyTimer (b : StateBuilder) (eventId : Nat)
    (f : TimerState → TimerState) : Except BuildError StateBuilder :=
  match b.timers.lookup eventId with
  | none => .error (.keyError eventId)
  | some i => .ok { b with timer_arena := listModify b.timer_arena i f }

/-- `_state._StateBuilder._process_event`, branch for branch in source order.
Each branch errors and mutates in the order the Python statements execute. -/
def StateBuilder.processEvent (b : StateBuilder) (event : Event) :
    Except BuildError StateBuilder :=
  match event with
  -- Decisions
  | .decisionTaskCompleted id _ =>
      .ok { b with latest_decision_event_id := some id }
  -- Execution
  | .workflowExecutionStarted _ occured config input =>
      .ok { b with execution := some {
          status := .started
          configuration := config
          started := occured
          input := input } }
  | .workflowExecutionCompleted _ occured result =>
      b.modifyExecution fun ex =>
        { ex with
          status := .completed
          ended := some occured
          result := result }
  | .workflowExecutionFailed _ occured reason details =>
      b.modifyExecution fun ex =>
        { ex with
          status := .failed
          ended := some occured
          failure_reason := reason
          stop_details := details }
  | .workflowExecutionCancelled _ occured details =>
      b.modifyExecution fun ex =>
        { ex with
          status := .cancelled
          ended := some occured
          stop_details := details }
  | .workflowExecutionTerminated _ occured reason details =>
      b.modifyExecution fun ex =>
        { ex with
          status := .terminated
          ended := some occured
          failure_reason := reason
          stop_details := details }
  | .workflowExecutionTimedOut _ occured =>
      b.modifyExecution fun ex =>
        { ex with
          status := .timed_out
          ended := some occured }
  | .workflowExecutionCancelRequested _ _ =>
      b.modifyExecution fun ex => { ex with cancel_requested := true }
  -- Tasks
  | .activityTaskScheduled id occured task_id activity config input control =>
      match b.execution with
      | none => .error (.attributeError "execution")
      | some ex =>
          let task : TaskState :=
            { id := task_id
              status := .scheduled
              activity := activity
              configuration := config
              scheduled := occured
              input := input
              decider_control := control }
          .ok { b with
            execution := some { ex with task_refs := ex.task_refs ++ [b.task_arena.length] }
            task_arena := b.task_arena ++ [task]
            tasks := (id, b.task_arena.length) :: b.tasks }
  | .activityTaskStarted _ occured backref worker_identity =>
      b.modifyTask backref fun task =>
        { task with
          status := .started
          started := some occured
          worker_identity := worker_identity }
  | .activityTaskCompleted _ occured backref result =>
      b.modifyTask backref fun task =>
        { task with
          status := .completed
          ended := some occured
          result := result }
  | .activityTaskFailed _ occured backref reason details =>
      b.modifyTask backref fun task =>
        { task with
          status := .failed
          ended := some occured
          failure_reason := reason
          stop_details := details }
  | .activityTaskCancelled _ occured backref details =>
      b.modifyTask backref fun task =>
        { task with
          status := .cancelled
          ended := some occured
          stop_details := details }
  | .activityTaskTimedOut _ occured backref timeout_type details =>
      b.modifyTask backref fun task =>
        { task with
          status := .timed_out
          ended := some occured
          timeout_type := some timeout_type
          stop_details := details }
  | .activityTaskCancelRequested _ _ task_id =>
      match b.execution with
      | none => .error (.attributeError "execution")
      | some ex =>
          match ex.task_refs.filter fun i =>
              ((b.task_arena.get? i).map TaskState.id) == some task_id with
          | [i] => .ok { b with task_arena := listModify b.task_arena i fun task => { task with cancel_requested := true } }
          | _ => .error (.lookupErrorStr task_id)
  -- Child executions
  | .startChildWorkflowExecutionInitiated id occured workflow config input control =>
      .ok { b with child_execution_initiation_events :=
        b.child_execution_initiation_events ++
          [{ id := id
             occured := occured
             workflow := workflow
             execution_configuration := config
             execution_input := input
             control := control }] }
  | .childWorkflowExecutionStarted _ occured backref executionId =>
      match b.child_execution_initiation_events.filter fun e => e.id == backref with
      | [initiation_event] =>
          match b.execution with
          | none => .error (.attributeError "execution")
          | some ex =>
              let child : ChildExecutionState :=
                { execution := executionId
                  workflow := initiation_event.workflow
                  status := .started
                  configuration := initiation_event.execution_configuration
                  started := occured
                  input := initiation_event.execution_input
                  decider_control := initiation_event.control }
              .ok { b with
                execution := some { ex with child_refs := ex.child_refs ++ [b.child_arena.length] }
                child_arena := b.child_arena ++ [child]
                child_executions := (initiation_event.id, b.child_arena.length) :: b.child_executions }
      | _ => .error (.lookupErrorNat backref)
  | .childWorkflowExecutionCompleted _ occured backref result =>
      b.modifyChildExecution backref fun ex =>
        { ex with
          status := .completed
          ended := some occured
          result := result }
  | .childWorkflowExecutionFailed _ occured backref reason details =>
      b.modifyChildExecution backref fun ex =>
        { ex with
          status := .failed
          ended := some occured
          failure_reason := reason
          stop_details := details }
  | .childWorkflowExecutionCancelled _ occured backref details =>
      b.modifyChildExecution backref fun ex =>
        { ex with
          status := .cancelled
          ended := some occured
          stop_details := details }
  | .childWorkflowExecutionTerminated _ occured backref =>
      b.modifyChildExecution backref fun ex =>
        { ex with
          status := .terminated
          ended := some occured }
  | .childWorkflowExecutionTimedOut _ occured backref =>
      -- Source line 262 sets `ExecutionStatus.terminated` here, not `timed_out`.
      b.modifyChildExecution backref fun ex =>
        { ex with
          status := .terminated
          ended := some occured }
  -- Timers
  | .timerStarted id occured timer_id duration control =>
      match b.execution with
      | none => .error (.attributeError "execution")
      | some ex =>
          let timer : TimerState :=
            { id := timer_id
              status := .started
              duraction := duration
              started := occured
              decider_control := control }
          .ok { b with
            execution := some { ex with timer_refs := ex.timer_refs ++ [b.timer_arena.length] }
            timer_arena := b.timer_arena ++ [timer]
            timers := (id, b.timer_arena.length) :: b.timers }
  | .timerFired _ occured backref =>
      b.modifyTimer backref fun timer =>
        { timer with
          status := .fired
          ended := some occured }
  | .timerCancelled _ occured backref =>
      b.modifyTimer backref fun timer =>
        { timer with
          status := .cancelled
          ended := some occured }
  -- Signals
  | .workflowExecutionSignaled _ occured signal_name signal_input =>
      match b.latest_decision_event_id with
      | none => .error (.attributeError "_latest_decision_event_id")
      | some latest =>
          match b.execution with
          | none => .error (.attributeError "execution")
          | some ex =>
              let signal : SignalState :=
                { name := signal_name
                  received := occured
                  decision_event_id := latest
                  input := signal_input }
              .ok { b with execution := some { ex with signals := ex.signals ++ [signal] } }
  | .unrecognised _ _ => .ok b

/-- The signal's `is_new` closure, evaluated against a builder: the value of
the builder's scalar captured when the signal was folded, compared with the
builder's live scalar. -/
def SignalState.is_new (s : SignalState) (b : StateBuilder) : Bool :=
  some s.decision_event_id == b.latest_decision_event_id

/-- `_state._StateBuilder.build`: fold the history, aborting on the first
error. -/
def StateBuilder.processEvents (b : StateBuilder) : List Event → Except BuildError StateBuilder
  | [] => .ok b
  | e :: rest =>
      match b.processEvent e with
      | .error err => .error err
      | .ok b' => b'.processEvents rest

/-- A fresh `_StateBuilder` (after `__init__`). -/
def initialBuilder : StateBuilder := {}

/-- Fold a whole history from a fresh builder. -/
def buildBuilder (execution_history : List Event) : Except BuildError StateBuilder :=
  initialBuilder.processEvents execution_history

/-- The snapshot as seen by the caller: `builder.execution` with the entity
collections dereferenced through the arenas. -/
def StateBuilder.snapshot (b : StateBuilder) : Option ExecutionState :=
  b.execution.map fun ex =>
    { status := ex.status, configuration := ex.configuration,
      started := ex.started, ended := ex.ended,
      tasks := ex.task_refs.filterMap fun i => b.task_arena.get? i,
      child_executions := ex.child_refs.filterMap fun i => b.child_arena.get? i,
      timers := ex.timer_refs.filterMap fun i => b.timer_arena.get? i,
      signals := ex.signals, input := ex.input,
      cancel_requested := ex.cancel_requested, result := ex.result,
      failure_reason := ex.failure_reason, stop_details := ex.stop_details }

/-- `_state.build_state`: fold the history and return `builder.execution`
(reading it raises `AttributeError` when no execution-started event created
it). -/
def build_state (execution_history : List Event) : Except BuildError ExecutionState :=
  match buildBuilder execution_history with
  | .error err => .error err
  | .ok b =>
      match b.snapshot with
      | none => .error (.attributeError "execution")
      | some s => .ok s

/-! ## Event classifiers and projections used by the verified properties -/

/-- The occurrence timestamp every event variant carries. -/
def Event.occured : Event → Nat
  | .decisionTaskCompleted _ o => o
  | .workflowExecutionStarted _ o _ _ => o
  | .workflowExecutionCompleted _ o _ => o
  | .workflowExecutionFailed _ o _ _ => o
  | .workflowExecutionCancelled _ o _ => o
  | .workflowExecutionTerminated _ o _ _ => o
  | .workflowExecutionTimedOut _ o => o
  | .workflowExecutionCancelRequested _ o => o
  | .activityTaskScheduled _ o _ _ _ _ _ => o
  | .activityTaskStarted _ o _ _ => o
  | .activityTaskCompleted _ o _ _ => o
  | .activityTaskFailed _ o _ _ _ => o
  | .activityTaskCancelled _ o _ _ => o
  | .activityTaskTimedOut _ o _ _ _ => o
  | .activityTaskCancelRequested _ o _ => o
  | .startChildWorkflowExecutionInitiated _ o _ _ _ _ => o
  | .childWorkflowExecutionStarted _ o _ _ => o
  | .childWorkflowExecutionCompleted _ o _ _ => o
  | .childWorkflowExecutionFailed _ o _ _ _ => o
  | .childWorkflowExecutionCancelled _ o _ _ => o
  | .childWorkflowExecutionTerminated _ o _ => o
  | .childWorkflowExecutionTimedOut _ o _ => o
  | .timerStarted _ o _ _ _ => o
  | .timerFired _ o _ => o
  | .timerCancelled _ o _ => o
  | .workflowExecutionSignaled _ o _ _ => o
  | .unrecognised _ o => o

/-- The key the event adds to the `_tasks` correlation dict, if any. -/
def Event.registersTask : Event → Option Nat
  | .activityTaskScheduled id _ _ _ _ _ _ => some id
  | _ => none

/-- The key the event adds to the `_timers` correlation dict, if any. -/
def Event.registersTimer : Event → Option Nat
  | .timerStarted id _ _ _ _ => some id
  | _ => none

/-- The key the event adds to the `_child_executions` correlation dict, if any
(a child-execution started event registers the entity under the initiation
event's identifier, which equals its own back-reference). -/
def Event.registersChildExecution : Event → Option Nat
  | .childWorkflowExecutionStarted _ _ backref _ => some backref
  | _ => none

/-- The identifier under which the event's initiation record can be found in
`_child_execution_initiation_events`, if the event is an initiation. -/
def Event.registersInitiation : Event → Option Nat
  | .startChildWorkflowExecutionInitiated id _ _ _ _ _ => some id
  | _ => none

/-- The back-reference of a task follow-up event (resolved in `_tasks`). -/
def Event.taskBackref : Event → Option Nat
  | .activityTaskStarted _ _ k _ => some k
  | .activityTaskCompleted _ _ k _ => some k
  | .activityTaskFailed _ _ k _ _ => some k
  | .activityTaskCancelled _ _ k _ => some k
  | .activityTaskTimedOut _ _ k _ _ => some k
  | _ => none

/-- The back-reference of a timer follow-up event (resolved in `_timers`). -/
def Event.timerBackref : Event → Option Nat
  | .timerFired _ _ k => some k
  | .timerCancelled _ _ k => some k
  | _ => none

/-- The back-reference of a child-execution started event (resolved in the
pending initiation list). -/
def Event.childStartedBackref : Event → Option Nat
  | .childWorkflowExecutionStarted _ _ k _ => some k
  | _ => none

/-- The back-reference of a child-execution follow-up event (resolved in
`_child_executions`). -/
def Event.childFollowupBackref : Event → Option Nat
  | .childWorkflowExecutionCompleted _ _ k _ => some k
  | .childWorkflowExecutionFailed _ _ k _ _ => some k
  | .childWorkflowExecutionCancelled _ _ k _ => some k
  | .childWorkflowExecutionTerminated _ _ k => some k
  | .childWorkflowExecutionTimedOut _ _ k => some k
  | _ => none

/-- The initiation record the event appends to
`_child_execution_initiation_events` (empty for all other variants). -/
def Event.initiationRecord : Event → List InitiationEvent
  | .startChildWorkflowExecutionInitiated id occured workflow config input control =>
      [{ id := id
         occured := occured
         workflow := workflow
         execution_configuration := config
         execution_input := input
         control := control }]
  | _ => []

/-- The `(task id, scheduled timestamp)` a task-scheduled event appends. -/
def Event.scheduledTaskInfo : Event → Option (String × Nat)
  | .activityTaskScheduled _ occured task_id _ _ _ _ => some (task_id, occured)
  | _ => none

/-- Is the event an activity-task event (scheduled, follow-up, or
cancel-requested)? -/
def Event.isTaskEvent : Event → Bool
  | .activityTaskScheduled _ _ _ _ _ _ _ => true
  | .activityTaskStarted _ _ _ _ => true
  | .activityTaskCompleted _ _ _ _ => true
  | .activityTaskFailed _ _ _ _ _ => true
  | .activityTaskCancelled _ _ _ _ => true
  | .activityTaskTimedOut _ _ _ _ _ => true
  | .activityTaskCancelRequested _ _ _ => true
  | _ => false

/-- Is the event a decision-task-completed event? -/
def Event.isDecisionTaskCompleted : Event → Bool
  | .decisionTaskCompleted _ _ => true
  | _ => false

/-- Is the event a workflow-execution-started event? -/
def Event.isWorkflowExecutionStarted : Event → Bool
  | .workflowExecutionStarted _ _ _ _ => true
  | _ => false

/-- Does the branch for the event read or create `self.execution` (the
snapshot)?  The only modelled variants whose branch never touches the snapshot
are decision-task-completed (scalar only) and child-execution-initiated
(pending table only); `unrecognised` events fall off the `elif` chain. -/
def Event.isSnapshotAffecting : Event → Bool
  | .decisionTaskCompleted _ _ => false
  | .startChildWorkflowExecutionInitiated _ _ _ _ _ _ => false
  | .unrecognised _ _ => false
  | _ => true

/-- The terminal execution status an execution-lifecycle terminal event sets,
if any. -/
def Event.executionTerminalStatus : Event → Option ExecutionStatus
  | .workflowExecutionCompleted _ _ _ => some .completed
  | .workflowExecutionFailed _ _ _ _ => some .failed
  | .workflowExecutionCancelled _ _ _ => some .cancelled
  | .workflowExecutionTerminated _ _ _ _ => some .terminated
  | .workflowExecutionTimedOut _ _ => some .timed_out
  | _ => none

/-- A follow-up event in `e` whose back-reference was never registered by a
corresponding scheduled / timer-started / initiated / child-started event
anywhere in `pre` (the history before `e`). -/
def danglingFollowup (pre : List Event) (e : Event) : Prop :=
  (∃ k, e.taskBackref = some k ∧ ∀ e2 ∈ pre, e2.registersTask ≠ some k) ∨
  (∃ k, e.timerBackref = some k ∧ ∀ e2 ∈ pre, e2.registersTimer ≠ some k) ∨
  (∃ k, e.childStartedBackref = some k ∧ ∀ e2 ∈ pre, e2.registersInitiation ≠ some k) ∨
  (∃ k, e.childFollowupBackref = some k ∧ ∀ e2 ∈ pre, e2.registersChildExecution ≠ some k)

/-- All initiation records a history appends, in order. -/
def initiationRecords : List Event → List InitiationEvent
  | [] => []
  | e :: rest => e.initiationRecord ++ initiationRecords rest

/-- The immutable identifying pair of a task state: caller-assigned id and
scheduled timestamp (set at the scheduled event, never mutated afterwards). -/
def taskProj (t : TaskState) : String × Nat := (t.id, t.scheduled)

/-- The identifying pairs of the snapshot's task list, in order. -/
def snapshotTaskKeys (b : StateBuilder) : List (String × Nat) :=
  match b.execution with
  | none => []
  | some ex => (ex.task_refs.filterMap fun i => b.task_arena.get? i).map taskProj

/-- Every arena index held by a snapshot collection or a correlation table is
in range of its arena (true of every reachable builder). -/
def StateBuilder.wellFormed (b : StateBuilder) : Bool :=
  (match b.execution with
   | none => true
   | some ex =>
       ex.task_refs.all (fun i => i < b.task_arena.length) &&
       ex.child_refs.all (fun i => i < b.child_arena.length) &&
       ex.timer_refs.all (fun i => i < b.timer_arena.length)) &&
  b.tasks.all (fun p => p.2 < b.task_arena.length) &&
  b.child_executions.all (fun p => p.2 < b.child_arena.length) &&
  b.timers.all (fun p => p.2 < b.timer_arena.length)

/-! ## Concrete fixtures for the end-to-end and counterexample theorems -/

/-- A sample execution configuration. -/
def cfg0 : ExecutionConfiguration :=
  { timeout := some 60
    decision_task_timeout := some 10
    decision_task_list := "tl"
    decision_task_priority := 0
    child_execution_policy_on_termination := .terminate }

/-- A sample activity id. -/
def act0 : ActivityId := { name := "a", version := "1" }

/-- A sample task configuration. -/
def tcfg0 : TaskConfiguration := { value := "tc" }

/-- A sample workflow type. -/
def wf0 : WorkflowId := { name := "w", version := "1" }

/-- A sample child execution id. -/
def xid0 : ExecutionId := { id := "e", run_id := "r" }

/-- The history of the end-to-end scenario: started, activity scheduled,
started, completed, execution completed. -/
def c1History : List Event :=
  [ .workflowExecutionStarted 1 1 cfg0 (some "x")
  , .activityTaskScheduled 2 2 "t1" act0 tcfg0 none none
  , .activityTaskStarted 3 3 2 (some "w1")
  , .activityTaskCompleted 4 4 2 (some "ok")
  , .workflowExecutionCompleted 5 5 (some "done") ]

/-- A history whose child execution is initiated, started and then times
out. -/
def c3History : List Event :=
  [ .workflowExecutionStarted 1 1 cfg0 none
  , .startChildWorkflowExecutionInitiated 2 2 wf0 cfg0 (some "ci") none
  , .childWorkflowExecutionStarted 3 3 2 xid0
  , .childWorkflowExecutionTimedOut 4 4 2 ]

/-- A history with two execution-lifecycle terminal events: completed, then
failed. -/
def c6History : List Event :=
  [ .workflowExecutionStarted 1 1 cfg0 none
  , .workflowExecutionCompleted 2 2 (some "r1")
  , .workflowExecutionFailed 3 3 (some "boom") none ]

/-- The snapshot shell after folding [started(id=1), decision-completed(id=5)]. -/
def c5Shell : ExecutionShell := { status := .started, configuration := cfg0, started := 1 }

/-- The builder after folding [started(id=1), decision-completed(id=5)]. -/
def c5Builder0 : StateBuilder :=
  { execution := some c5Shell, latest_decision_event_id := some 5 }

/-- The shell after additionally folding signal "A" and
decision-completed(id=9). -/
def c5Shell2 : ExecutionShell :=
  { status := .started
    configuration := cfg0
    started := 1
    signals := [{ name := "A", received := 3, decision_event_id := 5 }] }

/-- The builder after folding the whole C5 witness history. -/
def c5Builder2 : StateBuilder :=
  { execution := some c5Shell2, latest_decision_event_id := some 9 }

/-- The shell after folding [started(1), child-initiated(2)]. -/
def c4Shell : ExecutionShell := { status := .started, configuration := cfg0, started := 1 }

/-- The builder after folding [started(1), child-initiated(2, wf0, cfg0,
input "ci")]. -/
def c4Builder : StateBuilder :=
  { execution := some c4Shell
    child_execution_initiation_events :=
      [{ id := 2, occured := 2, workflow := wf0, execution_configuration := cfg0,
         execution_input := some "ci", control := none }] }

/-- The single scheduled task of the C7 witness. -/
def c7Task : TaskState :=
  { id := "t1", status := .scheduled, activity := act0, configuration := tcfg0, scheduled := 2 }

/-- The shell after folding [started(1), scheduled(2, "t1")]. -/
def c7Shell : ExecutionShell :=
  { status := .started, configuration := cfg0, started := 1, task_refs := [0] }

/-- The builder after folding [started(1), scheduled(2, "t1")]. -/
def c7Builder : StateBuilder :=
  { execution := some c7Shell, task_arena := [c7Task], tasks := [(2, 0)] }

/-- The snapshot of `c7Builder`. -/
def c7State : ExecutionState :=
  { status := .started, configuration := cfg0, started := 1, tasks := [c7Task] }

/-- The snapshot `build_state` produces for the C8 witness history (started,
scheduled "t1", started backref 2, scheduled "t2", completed backref 2). -/
def c8WitnessState : ExecutionState :=
  { status := .started
    configuration := cfg0
    started := 1
    tasks :=
      [ { id := "t1"
          status := .completed
          activity := act0
          configuration := tcfg0
          scheduled := 2
          started := some 3
          ended := some 5
          worker_identity := some "w1"
          result := some "ok" }
      , { id := "t2"
          status := .scheduled
          activity := act0
          configuration := tcfg0
          scheduled := 4 } ] }

/-! ## General lemmas about the fold -/

theorem listModify_length {α : Type} (l : List α) (i : Nat) (f : α → α) :
    (listModify l i f).length = l.length := by
  induction l generalizing i with
  | nil => rfl
  | cons x xs ih => cases i <;> simp [listModify, ih]

theorem listModify_get? {α : Type} (l : List α) (i j : Nat) (f : α → α) :
    (listModify l i f).get? j = if j = i then (l.get? j).map f else l.get? j := by
  induction l generalizing i j with
  | nil => simp [listModify]
  | cons x xs ih =>
      cases i with
      | zero => cases j <;> simp [listModify]
      | succ n =>
          cases j with
          | zero => simp [listModify]
          | succ m => simpa [listModify, Nat.succ_inj] using ih n m

theorem processEvents_append (b : StateBuilder) (l1 l2 : List Event) :
    b.processEvents (l1 ++ l2) =
      match b.processEvents l1 with
      | .error err => .error err
      | .ok b2 => b2.processEvents l2 := by
  induction l1 generalizing b with
  | nil => simp [StateBuilder.processEvents]
  | cons e rest ih =>
      simp only [List.cons_append, StateBuilder.processEvents]
      cases b.processEvent e <;> simp [ih]

theorem modifyExecution_ok (b : StateBuilder) (ex : ExecutionShell)
    (f : ExecutionShell → ExecutionShell) (hex : b.execution = some ex) :
    b.modifyExecution f = .ok { b with execution := some (f ex) } := by
  simp [StateBuilder.modifyExecution, hex]

/-! ## C1: end-to-end scenario -/

/-- C1: for the history [execution-started(id=1, input="x"),
activity-task-scheduled(id=2, task id "t1"), activity-task-started(id=3,
back-reference 2, worker identity "w1"), activity-task-completed(id=4,
back-reference 2, result "ok"), execution-completed(id=5, result "done")],
`build_state` returns a snapshot with status completed, result "done", and
exactly one task state, whose id is "t1", status is completed, worker identity
is "w1", and result is "ok". -/
theorem c1_end_to_end :
    (build_state c1History).map
        (fun s => (s.status, s.result,
          s.tasks.map fun t => (t.id, t.status, t.worker_identity, t.result))) =
      .ok (ExecutionStatus.completed, some "done",
        [("t1", TaskStatus.completed, some "w1", some "ok")]) := by
  rfl

/-! ## C3: child-execution timed-out event -/

/-- C3: the claim says folding a child-workflow-execution timed-out event that
back-references an initiated-and-started child sets the child entity's status
to timed-out and its end time to the event's timestamp.  The end-time half
holds, but the source (line 262 of `_state.py`) sets
`ExecutionStatus.terminated`, evidently a slip copied from the terminated
branch directly above it: for the concrete history [started,
child-initiated(id=2), child-started(id=3, backref 2),
child-timed-out(id=4, backref 2)] the resulting child entity has status
terminated, not timed-out, and end time 4. -/
theorem c3_child_timed_out_evaluates_to_terminated :
    (build_state c3History).map
        (fun s => s.child_executions.map fun c => (c.status, c.ended)) =
      .ok [(ExecutionStatus.terminated, some 4)] := by
  rfl

/-! ## C6: second execution-lifecycle terminal event -/

/-- C6 counterexample: the claim says folding a second execution-lifecycle
terminal event is a fatal error and the previously-set terminal status is not
silently overwritten.  For [started(1), completed(2, result "r1"),
failed(3, reason "boom")] `build_state` succeeds, and the snapshot's status has
been overwritten to failed with end time 3 (the stale result "r1" from the
completed event even survives). -/
theorem c6_second_terminal_is_not_an_error :
    (build_state c6History).map (fun s => (s.status, s.ended, s.result, s.failure_reason)) =
      .ok (ExecutionStatus.failed, some 3, some "r1", some "boom") := by
  rfl

/-- C6 amended: folding an execution-lifecycle terminal event always succeeds
when the snapshot exists, whatever status the snapshot already has: the status
and end time are silently overwritten with the event's target status and
timestamp (so a second terminal event is tolerated, not fatal). -/
theorem c6_terminal_event_overwrites (b : StateBuilder) (ex : ExecutionShell)
    (e : Event) (st : ExecutionStatus)
    (hex : b.execution = some ex) (hterm : e.executionTerminalStatus = some st) :
    ∃ b2 ex2, b.processEvent e = .ok b2 ∧ b2.execution = some ex2 ∧
      ex2.status = st ∧ ex2.ended = some e.occured := by
  cases e <;>
    simp only [Event.executionTerminalStatus, Option.some.injEq, reduceCtorEq] at hterm
  case workflowExecutionCompleted id o r =>
    exact ⟨_, _, modifyExecution_ok b ex _ hex, rfl, hterm, rfl⟩
  case workflowExecutionFailed id o r d =>
    exact ⟨_, _, modifyExecution_ok b ex _ hex, rfl, hterm, rfl⟩
  case workflowExecutionCancelled id o d =>
    exact ⟨_, _, modifyExecution_ok b ex _ hex, rfl, hterm, rfl⟩
  case workflowExecutionTerminated id o r d =>
    exact ⟨_, _, modifyExecution_ok b ex _ hex, rfl, hterm, rfl⟩
  case workflowExecutionTimedOut id o =>
    exact ⟨_, _, modifyExecution_ok b ex _ hex, rfl, hterm, rfl⟩

/-- Witness for the amended C6 theorem: a concrete builder whose snapshot is
already completed accepts a failed event and ends up failed. -/
theorem c6_terminal_event_overwrites_witness :
    ∃ b2 ex2,
      StateBuilder.processEvent
        { execution := some { status := .completed, configuration := cfg0, started := 1, ended := some 2 } }
        (.workflowExecutionFailed 3 3 (some "boom") none) = .ok b2 ∧
      b2.execution = some ex2 ∧ ex2.status = ExecutionStatus.failed ∧
      ex2.ended = some (Event.workflowExecutionFailed 3 3 (some "boom") none).occured :=
  c6_terminal_event_overwrites
    { execution := some { status := .completed, configuration := cfg0, started := 1, ended := some 2 } }
    { status := .completed, configuration := cfg0, started := 1, ended := some 2 }
    (.workflowExecutionFailed 3 3 (some "boom") none) ExecutionStatus.failed rfl rfl

/-! ## Correlation-table provenance and C2 -/
theorem processEvent_tasks_lookup (b b2 : StateBuilder) (e : Event) (k : Nat)
    (h : b.processEvent e = .ok b2) (hreg : e.registersTask ≠ some k) :
    b2.tasks.lookup k = b.tasks.lookup k := by
  cases e <;>
    simp only [StateBuilder.processEvent, StateBuilder.modifyExecution,
      StateBuilder.modifyTask, StateBuilder.modifyChildExecution,
      StateBuilder.modifyTimer, Event.registersTask] at h hreg <;>
    (repeat' split at h) <;>
    (try cases h) <;>
    (try simp_all)
  all_goals (
    rw [List.lookup_cons]
    split
    · rename_i heq
      exact absurd (beq_iff_eq.mp heq).symm hreg
    · rfl)

theorem processEvent_timers_lookup (b b2 : StateBuilder) (e : Event) (k : Nat)
    (h : b.processEvent e = .ok b2) (hreg : e.registersTimer ≠ some k) :
    b2.timers.lookup k = b.timers.lookup k := by
  cases e <;>
    simp only [StateBuilder.processEvent, StateBuilder.modifyExecution,
      StateBuilder.modifyTask, StateBuilder.modifyChildExecution,
      StateBuilder.modifyTimer, Event.registersTimer] at h hreg <;>
    (repeat' split at h) <;>
    (try cases h) <;>
    (try simp_all)
  all_goals (
    rw [List.lookup_cons]
    split
    · rename_i heq
      exact absurd (beq_iff_eq.mp heq).symm hreg
    · rfl)

theorem processEvent_childExecutions_lookup (b b2 : StateBuilder) (e : Event) (k : Nat)
    (h : b.processEvent e = .ok b2) (hreg : e.registersChildExecution ≠ some k) :
    b2.child_executions.lookup k = b.child_executions.lookup k := by
  cases e <;>
    simp only [StateBuilder.processEvent, StateBuilder.modifyExecution,
      StateBuilder.modifyTask, StateBuilder.modifyChildExecution,
      StateBuilder.modifyTimer, Event.registersChildExecution] at h hreg <;>
    (repeat' split at h) <;>
    (try cases h) <;>
    (try simp_all)
  all_goals (
    rename_i x1 ie xo ex2 hfil hex
    have hmem : ie ∈ [ie] := List.mem_singleton_self ie
    rw [← hfil] at hmem
    have hid := List.of_mem_filter hmem
    rw [List.lookup_cons]
    split
    · rename_i heq
      exact absurd ((beq_iff_eq.mp hid).symm.trans (beq_iff_eq.mp heq).symm) hreg
    · rfl)

theorem processEvent_pending (b b2 : StateBuilder) (e : Event)
    (h : b.processEvent e = .ok b2) :
    b2.child_execution_initiation_events =
      b.child_execution_initiation_events ++ e.initiationRecord := by
  cases e <;>
    simp only [StateBuilder.processEvent, StateBuilder.modifyExecution,
      StateBuilder.modifyTask, StateBuilder.modifyChildExecution,
      StateBuilder.modifyTimer, Event.initiationRecord] at h ⊢ <;>
    (repeat' split at h) <;>
    (try cases h) <;>
    simp_all

theorem processEvent_latest (b b2 : StateBuilder) (e : Event)
    (h : b.processEvent e = .ok b2) (hd : e.isDecisionTaskCompleted = false) :
    b2.latest_decision_event_id = b.latest_decision_event_id := by
  cases e <;>
    simp only [StateBuilder.processEvent, StateBuilder.modifyExecution,
      StateBuilder.modifyTask, StateBuilder.modifyChildExecution,
      StateBuilder.modifyTimer, Event.isDecisionTaskCompleted] at h hd <;>
    (repeat' split at h) <;>
    (try cases h) <;>
    simp_all



theorem processEvents_tasks_lookup (l : List Event) (b b2 : StateBuilder) (k : Nat)
    (h : b.processEvents l = .ok b2) (hl : ∀ e ∈ l, e.registersTask ≠ some k) :
    b2.tasks.lookup k = b.tasks.lookup k := by
  induction l generalizing b with
  | nil =>
      simp only [StateBuilder.processEvents, Except.ok.injEq] at h
      rw [h]
  | cons e rest ih =>
      simp only [StateBuilder.processEvents] at h
      cases he : b.processEvent e with
      | error err => rw [he] at h; cases h
      | ok b1 =>
          rw [he] at h
          rw [ih b1 h fun e2 h2 => hl e2 (List.mem_cons_of_mem _ h2)]
          exact processEvent_tasks_lookup b b1 e k he (hl e (List.mem_cons_self _ _))

theorem processEvents_timers_lookup (l : List Event) (b b2 : StateBuilder) (k : Nat)
    (h : b.processEvents l = .ok b2) (hl : ∀ e ∈ l, e.registersTimer ≠ some k) :
    b2.timers.lookup k = b.timers.lookup k := by
  induction l generalizing b with
  | nil =>
      simp only [StateBuilder.processEvents, Except.ok.injEq] at h
      rw [h]
  | cons e rest ih =>
      simp only [StateBuilder.processEvents] at h
      cases he : b.processEvent e with
      | error err => rw [he] at h; cases h
      | ok b1 =>
          rw [he] at h
          rw [ih b1 h fun e2 h2 => hl e2 (List.mem_cons_of_mem _ h2)]
          exact processEvent_timers_lookup b b1 e k he (hl e (List.mem_cons_self _ _))

theorem processEvents_childExecutions_lookup (l : List Event) (b b2 : StateBuilder) (k : Nat)
    (h : b.processEvents l = .ok b2) (hl : ∀ e ∈ l, e.registersChildExecution ≠ some k) :
    b2.child_executions.lookup k = b.child_executions.lookup k := by
  induction l generalizing b with
  | nil =>
      simp only [StateBuilder.processEvents, Except.ok.injEq] at h
      rw [h]
  | cons e rest ih =>
      simp only [StateBuilder.processEvents] at h
      cases he : b.processEvent e with
      | error err => rw [he] at h; cases h
      | ok b1 =>
          rw [he] at h
          rw [ih b1 h fun e2 h2 => hl e2 (List.mem_cons_of_mem _ h2)]
          exact processEvent_childExecutions_lookup b b1 e k he (hl e (List.mem_cons_self _ _))

theorem processEvents_pending (l : List Event) (b b2 : StateBuilder)
    (h : b.processEvents l = .ok b2) :
    b2.child_execution_initiation_events =
      b.child_execution_initiation_events ++ initiationRecords l := by
  induction l generalizing b with
  | nil =>
      simp only [StateBuilder.processEvents, Except.ok.injEq] at h
      rw [h, initiationRecords, List.append_nil]
  | cons e rest ih =>
      simp only [StateBuilder.processEvents] at h
      cases he : b.processEvent e with
      | error err => rw [he] at h; cases h
      | ok b1 =>
          rw [he] at h
          rw [ih b1 h, processEvent_pending b b1 e he, initiationRecords,
            List.append_assoc]

theorem processEvents_latest (l : List Event) (b b2 : StateBuilder)
    (h : b.processEvents l = .ok b2) (hl : ∀ e ∈ l, e.isDecisionTaskCompleted = false) :
    b2.latest_decision_event_id = b.latest_decision_event_id := by
  induction l generalizing b with
  | nil =>
      simp only [StateBuilder.processEvents, Except.ok.injEq] at h
      rw [h]
  | cons e rest ih =>
      simp only [StateBuilder.processEvents] at h
      cases he : b.processEvent e with
      | error err => rw [he] at h; cases h
      | ok b1 =>
          rw [he] at h
          rw [ih b1 h fun e2 h2 => hl e2 (List.mem_cons_of_mem _ h2)]
          exact processEvent_latest b b1 e he (hl e (List.mem_cons_self _ _))

theorem dangling_task_keyError (b : StateBuilder) (e : Event) (k : Nat)
    (hk : e.taskBackref = some k) (hnone : b.tasks.lookup k = none) :
    b.processEvent e = .error (.keyError k) := by
  cases e <;> simp only [Event.taskBackref, Option.some.injEq, reduceCtorEq] at hk <;>
    subst hk <;>
    simp [StateBuilder.processEvent, StateBuilder.modifyTask, hnone]

theorem dangling_timer_keyError (b : StateBuilder) (e : Event) (k : Nat)
    (hk : e.timerBackref = some k) (hnone : b.timers.lookup k = none) :
    b.processEvent e = .error (.keyError k) := by
  cases e <;> simp only [Event.timerBackref, Option.some.injEq, reduceCtorEq] at hk <;>
    subst hk <;>
    simp [StateBuilder.processEvent, StateBuilder.modifyTimer, hnone]

theorem dangling_childFollowup_keyError (b : StateBuilder) (e : Event) (k : Nat)
    (hk : e.childFollowupBackref = some k) (hnone : b.child_executions.lookup k = none) :
    b.processEvent e = .error (.keyError k) := by
  cases e <;> simp only [Event.childFollowupBackref, Option.some.injEq, reduceCtorEq] at hk <;>
    subst hk <;>
    simp [StateBuilder.processEvent, StateBuilder.modifyChildExecution, hnone]

theorem dangling_childStarted_lookupError (b : StateBuilder) (e : Event) (k : Nat)
    (hk : e.childStartedBackref = some k)
    (hfil : b.child_execution_initiation_events.filter (fun r => r.id == k) = []) :
    b.processEvent e = .error (.lookupErrorNat k) := by
  cases e <;> simp only [Event.childStartedBackref, Option.some.injEq, reduceCtorEq] at hk <;>
    subst hk <;>
    simp [StateBuilder.processEvent, hfil]

theorem initiationRecord_id (e : Event) (r : InitiationEvent)
    (hr : r ∈ e.initiationRecord) : e.registersInitiation = some r.id := by
  cases e <;> simp only [Event.initiationRecord, List.mem_singleton,
    List.not_mem_nil] at hr <;> simp [Event.registersInitiation, hr]

theorem initiationRecords_filter_nil (l : List Event) (k : Nat)
    (h : ∀ e ∈ l, e.registersInitiation ≠ some k) :
    (initiationRecords l).filter (fun r => r.id == k) = [] := by
  induction l with
  | nil => rfl
  | cons e rest ih =>
      rw [initiationRecords, List.filter_append,
        ih fun e2 h2 => h e2 (List.mem_cons_of_mem _ h2), List.append_nil]
      rw [List.filter_eq_nil_iff]
      intro r hr
      have := initiationRecord_id e r hr
      have hne : r.id ≠ k := by
        intro hh
        exact h e (List.mem_cons_self _ _) (hh ▸ this)
      simp [hne]



/-- C2: for every history containing a task, timer, or child-execution
follow-up event whose back-reference identifier was never registered by a
corresponding task-scheduled, timer-started, or child-execution
initiated/started event earlier in the same history, `build_state` fails with
an error rather than returning a snapshot; and whenever the fold actually
reaches the offending event, the error raised there is a lookup error (Python
`LookupError`, of which `KeyError` is a subclass) — the event is never
silently dropped and no entity is silently created. -/
theorem c2_dangling_backref_fails (pre post : List Event) (e : Event) (h : danglingFollowup pre e) :
    (∃ err, build_state (pre ++ e :: post) = .error err) ∧
    ∀ b, initialBuilder.processEvents pre = .ok b →
      ∃ err, b.processEvent e = .error err ∧ err.isLookup = true := by
  have core : ∀ b, initialBuilder.processEvents pre = .ok b →
      ∃ err, b.processEvent e = .error err ∧ err.isLookup = true := by
    intro b hb
    rcases h with ⟨k, hk, hall⟩ | ⟨k, hk, hall⟩ | ⟨k, hk, hall⟩ | ⟨k, hk, hall⟩
    · refine ⟨.keyError k, ?_, rfl⟩
      apply dangling_task_keyError b e k hk
      rw [processEvents_tasks_lookup pre initialBuilder b k hb hall]
      rfl
    · refine ⟨.keyError k, ?_, rfl⟩
      apply dangling_timer_keyError b e k hk
      rw [processEvents_timers_lookup pre initialBuilder b k hb hall]
      rfl
    · refine ⟨.lookupErrorNat k, ?_, rfl⟩
      apply dangling_childStarted_lookupError b e k hk
      rw [processEvents_pending pre initialBuilder b hb]
      simpa [initialBuilder] using initiationRecords_filter_nil pre k hall
    · refine ⟨.keyError k, ?_, rfl⟩
      apply dangling_childFollowup_keyError b e k hk
      rw [processEvents_childExecutions_lookup pre initialBuilder b k hb hall]
      rfl
  refine ⟨?_, core⟩
  have happ := processEvents_append initialBuilder pre (e :: post)
  cases hb : initialBuilder.processEvents pre with
  | error err =>
      refine ⟨err, ?_⟩
      rw [hb] at happ
      simp [build_state, buildBuilder, happ]
  | ok b =>
      obtain ⟨err, herr, _⟩ := core b hb
      refine ⟨err, ?_⟩
      rw [hb] at happ
      simp [build_state, buildBuilder, happ, StateBuilder.processEvents, herr]


/-- Witness for C2: a task-started event back-referencing the never-registered
identifier 5, as the whole history. -/
theorem c2_dangling_backref_fails_witness :
    (∃ err, build_state ([] ++ Event.activityTaskStarted 1 1 5 none :: []) = .error err) ∧
    ∀ b, initialBuilder.processEvents [] = .ok b →
      ∃ err, b.processEvent (Event.activityTaskStarted 1 1 5 none) = .error err ∧
        err.isLookup = true :=
  c2_dangling_backref_fails [] [] (Event.activityTaskStarted 1 1 5 none)
    (Or.inl ⟨5, rfl, by simp⟩)

/-! ## Snapshot creation (C10) and signal preconditions (C9) -/

theorem processEvents_nonAffecting (l : List Event) (b : StateBuilder)
    (hl : ∀ e ∈ l, e.isSnapshotAffecting = false) :
    ∃ b2, b.processEvents l = .ok b2 ∧ b2.execution = b.execution ∧
      b2.tasks = b.tasks ∧ b2.child_executions = b.child_executions ∧
      b2.timers = b.timers := by
  induction l generalizing b with
  | nil => exact ⟨b, rfl, rfl, rfl, rfl, rfl⟩
  | cons e rest ih =>
      have he := hl e (List.mem_cons_self _ _)
      have hstep : ∃ b1, b.processEvent e = .ok b1 ∧ b1.execution = b.execution ∧
          b1.tasks = b.tasks ∧ b1.child_executions = b.child_executions ∧
          b1.timers = b.timers := by
        cases e <;> simp only [Event.isSnapshotAffecting, Bool.true_eq_false] at he <;>
          exact ⟨_, rfl, rfl, rfl, rfl, rfl⟩
      obtain ⟨b1, h1, e1, t1, c1, m1⟩ := hstep
      obtain ⟨b2, h2, e2, t2, c2, m2⟩ :=
        ih b1 fun e2 h2 => hl e2 (List.mem_cons_of_mem _ h2)
      refine ⟨b2, ?_, e2.trans e1, t2.trans t1, c2.trans c1, m2.trans m1⟩
      simp [StateBuilder.processEvents, h1, h2]

theorem affecting_without_execution_fails (b : StateBuilder) (e : Event)
    (hex : b.execution = none) (ht : b.tasks = []) (hc : b.child_executions = [])
    (hm : b.timers = [])
    (ha : e.isSnapshotAffecting = true) (hs : e.isWorkflowExecutionStarted = false) :
    ∃ err, b.processEvent e = .error err := by
  cases e
  case decisionTaskCompleted id o => simp [Event.isSnapshotAffecting] at ha
  case startChildWorkflowExecutionInitiated id o w cf inp ctl =>
      simp [Event.isSnapshotAffecting] at ha
  case unrecognised id o => simp [Event.isSnapshotAffecting] at ha
  case workflowExecutionStarted id o cf inp => simp [Event.isWorkflowExecutionStarted] at hs
  case workflowExecutionCompleted id o r =>
      exact ⟨.attributeError "execution",
        by simp [StateBuilder.processEvent, StateBuilder.modifyExecution, hex]⟩
  case workflowExecutionFailed id o r d =>
      exact ⟨.attributeError "execution",
        by simp [StateBuilder.processEvent, StateBuilder.modifyExecution, hex]⟩
  case workflowExecutionCancelled id o d =>
      exact ⟨.attributeError "execution",
        by simp [StateBuilder.processEvent, StateBuilder.modifyExecution, hex]⟩
  case workflowExecutionTerminated id o r d =>
      exact ⟨.attributeError "execution",
        by simp [StateBuilder.processEvent, StateBuilder.modifyExecution, hex]⟩
  case workflowExecutionTimedOut id o =>
      exact ⟨.attributeError "execution",
        by simp [StateBuilder.processEvent, StateBuilder.modifyExecution, hex]⟩
  case workflowExecutionCancelRequested id o =>
      exact ⟨.attributeError "execution",
        by simp [StateBuilder.processEvent, StateBuilder.modifyExecution, hex]⟩
  case activityTaskScheduled id o tid act cf inp ctl =>
      exact ⟨.attributeError "execution", by simp [StateBuilder.processEvent, hex]⟩
  case activityTaskStarted id o k w =>
      exact ⟨.keyError k, by simp [StateBuilder.processEvent, StateBuilder.modifyTask, ht]⟩
  case activityTaskCompleted id o k r =>
      exact ⟨.keyError k, by simp [StateBuilder.processEvent, StateBuilder.modifyTask, ht]⟩
  case activityTaskFailed id o k r d =>
      exact ⟨.keyError k, by simp [StateBuilder.processEvent, StateBuilder.modifyTask, ht]⟩
  case activityTaskCancelled id o k d =>
      exact ⟨.keyError k, by simp [StateBuilder.processEvent, StateBuilder.modifyTask, ht]⟩
  case activityTaskTimedOut id o k tt d =>
      exact ⟨.keyError k, by simp [StateBuilder.processEvent, StateBuilder.modifyTask, ht]⟩
  case activityTaskCancelRequested id o tid =>
      exact ⟨.attributeError "execution", by simp [StateBuilder.processEvent, hex]⟩
  case childWorkflowExecutionStarted id o backref x =>
      cases hfil : b.child_execution_initiation_events.filter fun r => r.id == backref with
      | nil => exact ⟨.lookupErrorNat backref, by simp [StateBuilder.processEvent, hfil]⟩
      | cons ie rest =>
          cases rest with
          | nil =>
              exact ⟨.attributeError "execution",
                by simp [StateBuilder.processEvent, hfil, hex]⟩
          | cons ie2 rest2 =>
              exact ⟨.lookupErrorNat backref, by simp [StateBuilder.processEvent, hfil]⟩
  case childWorkflowExecutionCompleted id o k r =>
      exact ⟨.keyError k,
        by simp [StateBuilder.processEvent, StateBuilder.modifyChildExecution, hc]⟩
  case childWorkflowExecutionFailed id o k r d =>
      exact ⟨.keyError k,
        by simp [StateBuilder.processEvent, StateBuilder.modifyChildExecution, hc]⟩
  case childWorkflowExecutionCancelled id o k d =>
      exact ⟨.keyError k,
        by simp [StateBuilder.processEvent, StateBuilder.modifyChildExecution, hc]⟩
  case childWorkflowExecutionTerminated id o k =>
      exact ⟨.keyError k,
        by simp [StateBuilder.processEvent, StateBuilder.modifyChildExecution, hc]⟩
  case childWorkflowExecutionTimedOut id o k =>
      exact ⟨.keyError k,
        by simp [StateBuilder.processEvent, StateBuilder.modifyChildExecution, hc]⟩
  case timerStarted id o tid dur ctl =>
      exact ⟨.attributeError "execution", by simp [StateBuilder.processEvent, hex]⟩
  case timerFired id o k =>
      exact ⟨.keyError k, by simp [StateBuilder.processEvent, StateBuilder.modifyTimer, hm]⟩
  case timerCancelled id o k =>
      exact ⟨.keyError k, by simp [StateBuilder.processEvent, StateBuilder.modifyTimer, hm]⟩
  case workflowExecutionSignaled id o nm inp =>
      cases hl : b.latest_decision_event_id with
      | none =>
          exact ⟨.attributeError "_latest_decision_event_id",
            by simp [StateBuilder.processEvent, hl]⟩
      | some l =>
          exact ⟨.attributeError "execution",
            by simp [StateBuilder.processEvent, hl, hex]⟩

/-- C10: `build_state` returns a snapshot only if the history contains a
workflow-execution-started event before any other snapshot-affecting event.
The snapshot object is created solely by the execution-started branch, so the
empty history errors (reading the never-assigned `execution` attribute), and a
history whose first snapshot-affecting event is any other variant makes
`build_state` raise an error instead of returning a state. -/
theorem c10_snapshot_only_from_started (pre post : List Event) (e : Event) (s : ExecutionState)
    (hpre : ∀ e2 ∈ pre, e2.isSnapshotAffecting = false)
    (ha : e.isSnapshotAffecting = true) (hs : e.isWorkflowExecutionStarted = false) :
    build_state [] = .error (.attributeError "execution") ∧
    build_state (pre ++ e :: post) ≠ .ok s := by
  refine ⟨rfl, ?_⟩
  intro hok
  obtain ⟨b, hb, hbex, hbt, hbc, hbm⟩ := processEvents_nonAffecting pre initialBuilder hpre
  obtain ⟨err, herr⟩ := affecting_without_execution_fails b e
    (by rw [hbex]; rfl) (by rw [hbt]; rfl) (by rw [hbc]; rfl) (by rw [hbm]; rfl) ha hs
  have happ := processEvents_append initialBuilder pre (e :: post)
  rw [hb] at happ
  have hres : initialBuilder.processEvents (pre ++ e :: post) = .error err := by
    rw [happ]
    simp [StateBuilder.processEvents, herr]
  simp [build_state, buildBuilder, hres] at hok

/-- C9: for every history containing a signal-received event that is not
preceded by any decision-task-completed event, `build_state` raises an error
rather than producing a snapshot: `_latest_decision_event_id` is read before
it has ever been assigned (`__init__` does not initialize it), so whenever the
fold reaches the signal it raises exactly that attribute error, and the whole
build errors in every case. -/
theorem c9_signal_needs_decision (pre post : List Event) (sid so : Nat) (nm : String) (inp : Option String)
    (hpre : ∀ e ∈ pre, e.isDecisionTaskCompleted = false) :
    (∃ err, build_state (pre ++ Event.workflowExecutionSignaled sid so nm inp :: post) = .error err) ∧
    ∀ b, initialBuilder.processEvents pre = .ok b →
      b.processEvent (Event.workflowExecutionSignaled sid so nm inp) =
        .error (.attributeError "_latest_decision_event_id") := by
  have core : ∀ b, initialBuilder.processEvents pre = .ok b →
      b.processEvent (Event.workflowExecutionSignaled sid so nm inp) =
        .error (.attributeError "_latest_decision_event_id") := by
    intro b hb
    have hnone : b.latest_decision_event_id = none := by
      rw [processEvents_latest pre initialBuilder b hb hpre]; rfl
    simp [StateBuilder.processEvent, hnone]
  refine ⟨?_, core⟩
  have happ := processEvents_append initialBuilder pre
    (Event.workflowExecutionSignaled sid so nm inp :: post)
  cases hb : initialBuilder.processEvents pre with
  | error err =>
      refine ⟨err, ?_⟩
      rw [hb] at happ
      simp [build_state, buildBuilder, happ]
  | ok b =>
      refine ⟨.attributeError "_latest_decision_event_id", ?_⟩
      rw [hb] at happ
      simp [build_state, buildBuilder, happ, StateBuilder.processEvents, core b hb]


/-- Witness for C10: a decision-completed event followed by an
execution-completed event, so the first snapshot-affecting event is not an
execution-started event. -/
theorem c10_snapshot_only_from_started_witness :
    build_state [] = .error (.attributeError "execution") ∧
    build_state ([Event.decisionTaskCompleted 1 1] ++
      Event.workflowExecutionCompleted 2 2 none :: []) ≠ .ok default :=
  c10_snapshot_only_from_started [Event.decisionTaskCompleted 1 1] []
    (Event.workflowExecutionCompleted 2 2 none) default (by decide) rfl rfl

/-- Witness for C9: an execution-started event followed directly by a signal,
with no decision-task-completed event anywhere before the signal. -/
theorem c9_signal_needs_decision_witness :
    (∃ err, build_state ([Event.workflowExecutionStarted 1 1 cfg0 none] ++
        Event.workflowExecutionSignaled 2 2 "A" none :: []) = .error err) ∧
    ∀ b, initialBuilder.processEvents [Event.workflowExecutionStarted 1 1 cfg0 none] = .ok b →
      b.processEvent (Event.workflowExecutionSignaled 2 2 "A" none) =
        .error (.attributeError "_latest_decision_event_id") :=
  c9_signal_needs_decision [Event.workflowExecutionStarted 1 1 cfg0 none] [] 2 2 "A" none
    (by decide)

/-! ## Task-list order preservation (C8) -/

theorem filterMap_map_congr {α β γ : Type} (proj : β → γ) (g1 g2 : α → Option β)
    (l : List α) (h : ∀ a ∈ l, (g1 a).map proj = (g2 a).map proj) :
    (l.filterMap g1).map proj = (l.filterMap g2).map proj := by
  induction l with
  | nil => rfl
  | cons a rest ih =>
      have ha := h a (List.mem_cons_self _ _)
      rw [List.filterMap_cons, List.filterMap_cons]
      cases hg1 : g1 a with
      | none =>
          cases hg2 : g2 a with
          | none => exact ih fun x hx => h x (List.mem_cons_of_mem _ hx)
          | some t2 => rw [hg1, hg2] at ha; simp at ha
      | some t1 =>
          cases hg2 : g2 a with
          | none => rw [hg1, hg2] at ha; simp at ha
          | some t2 =>
              rw [hg1, hg2] at ha
              simp only [Option.map_some'] at ha
              simp only [List.map_cons, Option.some.injEq] at ha ⊢
              rw [ha, ih fun x hx => h x (List.mem_cons_of_mem _ hx)]

theorem listModify_proj_keys (refs : List Nat) (arena : List TaskState) (i : Nat)
    (f : TaskState → TaskState) (hf : ∀ t, taskProj (f t) = taskProj t) :
    ((refs.filterMap fun j => (listModify arena i f).get? j).map taskProj) =
      ((refs.filterMap fun j => arena.get? j).map taskProj) := by
  apply filterMap_map_congr
  intro j _
  rw [listModify_get?]
  by_cases hji : j = i
  · subst hji
    cases harena : arena.get? j with
    | none => simp
    | some t => simp [hf]
  · simp [hji]

theorem append_refs_keys {α : Type} (refs : List Nat) (arena : List α) (t : α)
    (hin : ∀ i ∈ refs, i < arena.length) :
    ((refs ++ [arena.length]).filterMap fun j => (arena ++ [t]).get? j) =
      (refs.filterMap fun j => arena.get? j) ++ [t] := by
  rw [List.filterMap_append]
  congr 1
  · apply List.filterMap_congr
    intro j hj
    exact List.get?_append (hin j hj)
  · simp [List.filterMap_cons, List.get?_concat_length]

theorem c8_step (b b2 : StateBuilder) (e : Event) (ex : ExecutionShell)
    (he : e.isTaskEvent = true) (hex : b.execution = some ex)
    (hin : ∀ i ∈ ex.task_refs, i < b.task_arena.length)
    (h : b.processEvent e = .ok b2) :
    ∃ ex2, b2.execution = some ex2 ∧
      (∀ i ∈ ex2.task_refs, i < b2.task_arena.length) ∧
      snapshotTaskKeys b2 = snapshotTaskKeys b ++ (e.scheduledTaskInfo).toList := by
  cases e <;> simp only [Event.isTaskEvent, Bool.false_eq_true] at he
  case activityTaskScheduled id o tid act cf inp ctl =>
      simp only [StateBuilder.processEvent, hex] at h
      cases h
      refine ⟨_, rfl, ?_, ?_⟩
      · intro i hi
        simp only [List.length_append, List.length_singleton]
        rcases List.mem_append.mp hi with hi | hi
        · exact Nat.lt_succ_of_lt (hin i hi)
        · rw [List.mem_singleton.mp hi]; exact Nat.lt_succ_self _
      · simp only [snapshotTaskKeys, hex, Event.scheduledTaskInfo, Option.toList_some]
        rw [append_refs_keys ex.task_refs b.task_arena _ hin]
        simp [taskProj]
  case activityTaskCancelRequested id o tid =>
      simp only [StateBuilder.processEvent, hex] at h
      cases hfil : ex.task_refs.filter fun i =>
          ((b.task_arena.get? i).map TaskState.id) == some tid with
      | nil => rw [hfil] at h; cases h
      | cons j rest =>
          cases rest with
          | nil =>
              rw [hfil] at h
              cases h
              refine ⟨ex, rfl, ?_, ?_⟩
              · intro j2 hj2
                rw [listModify_length]
                exact hin j2 hj2
              · simp only [snapshotTaskKeys, hex, Event.scheduledTaskInfo, Option.toList_none,
                  List.append_nil]
                exact listModify_proj_keys _ _ _ _ fun t => rfl
          | cons j2 rest2 => rw [hfil] at h; cases h
  all_goals (
    simp only [StateBuilder.processEvent, StateBuilder.modifyTask] at h
    cases hlk : b.tasks.lookup _ with
    | none => rw [hlk] at h; cases h
    | some i =>
        rw [hlk] at h
        cases h
        refine ⟨ex, hex, ?_, ?_⟩
        · intro j hj
          rw [listModify_length]
          exact hin j hj
        · simp only [snapshotTaskKeys, hex, Event.scheduledTaskInfo, Option.toList_none,
            List.append_nil]
          exact listModify_proj_keys _ _ _ _ fun t => rfl)

theorem c8_fold (l : List Event) (b b2 : StateBuilder) (ex : ExecutionShell)
    (hl : ∀ e ∈ l, e.isTaskEvent = true) (hex : b.execution = some ex)
    (hin : ∀ i ∈ ex.task_refs, i < b.task_arena.length)
    (h : b.processEvents l = .ok b2) :
    snapshotTaskKeys b2 = snapshotTaskKeys b ++ l.filterMap Event.scheduledTaskInfo := by
  induction l generalizing b ex with
  | nil =>
      simp only [StateBuilder.processEvents, Except.ok.injEq] at h
      rw [h, List.filterMap_nil, List.append_nil]
  | cons e rest ih =>
      simp only [StateBuilder.processEvents] at h
      cases hstep : b.processEvent e with
      | error err => rw [hstep] at h; cases h
      | ok b1 =>
          rw [hstep] at h
          obtain ⟨ex1, hex1, hin1, hkeys⟩ :=
            c8_step b b1 e ex (hl e (List.mem_cons_self _ _)) hex hin hstep
          rw [ih b1 ex1 (fun e2 h2 => hl e2 (List.mem_cons_of_mem _ h2)) hex1 hin1 h,
            hkeys, List.filterMap_cons]
          cases e.scheduledTaskInfo <;> simp

/-- C8: for every history beginning with an execution-started event whose
remaining events are all activity-task events (scheduled events interleaved
with individually valid follow-ups, in any order), the returned snapshot's
task list corresponds one-to-one, in order, with the task-scheduled events of
the history: projecting each task state to its immutable (caller-assigned id,
scheduled timestamp) pair yields exactly the same list as projecting the
scheduled events, so there are exactly N entries in original scheduling
order, no matter which follow-up events occur or in which order. -/
theorem c8_task_list_order (id0 o0 : Nat) (config : ExecutionConfiguration) (input : Option String)
    (rest : List Event) (s : ExecutionState)
    (hrest : ∀ e ∈ rest, e.isTaskEvent = true)
    (hok : build_state (Event.workflowExecutionStarted id0 o0 config input :: rest) = .ok s) :
    s.tasks.map taskProj = rest.filterMap Event.scheduledTaskInfo := by
  rw [build_state] at hok
  cases hb : buildBuilder (Event.workflowExecutionStarted id0 o0 config input :: rest) with
  | error err => rw [hb] at hok; cases hok
  | ok b =>
      rw [hb] at hok
      have hb2 : StateBuilder.processEvents
          { initialBuilder with execution := some {
              status := .started
              configuration := config
              started := o0
              input := input } } rest = .ok b := hb
      cases hbex : b.execution with
      | none => simp [StateBuilder.snapshot, hbex] at hok
      | some ex =>
          have hs : s = (b.snapshot).get (by simp [StateBuilder.snapshot, hbex]) := by
            simp [StateBuilder.snapshot, hbex] at hok ⊢
            exact hok.symm
          have hkeys := c8_fold rest _ b _ hrest rfl (by intro i hi; cases hi) hb2
          have : snapshotTaskKeys b = s.tasks.map taskProj := by
            simp only [snapshotTaskKeys, hbex]
            rw [hs]
            simp [StateBuilder.snapshot, hbex]
          rw [← this, hkeys]
          simp [snapshotTaskKeys]


/-- Witness for C8: two scheduled tasks with interleaved started/completed
follow-ups for the first; the snapshot's task list keeps exactly the two
tasks in scheduling order. -/
theorem c8_task_list_order_witness :
    c8WitnessState.tasks.map taskProj =
      List.filterMap Event.scheduledTaskInfo
        [ Event.activityTaskScheduled 2 2 "t1" act0 tcfg0 none none
        , Event.activityTaskStarted 3 3 2 (some "w1")
        , Event.activityTaskScheduled 4 4 "t2" act0 tcfg0 none none
        , Event.activityTaskCompleted 5 5 2 (some "ok") ] :=
  c8_task_list_order 1 1 cfg0 none
    [ Event.activityTaskScheduled 2 2 "t1" act0 tcfg0 none none
    , Event.activityTaskStarted 3 3 2 (some "w1")
    , Event.activityTaskScheduled 4 4 "t2" act0 tcfg0 none none
    , Event.activityTaskCompleted 5 5 2 (some "ok") ]
    c8WitnessState (by decide) rfl

/-! ## Signal freshness (C5) -/

theorem processEvent_signals_mono (b b2 : StateBuilder) (e : Event) (ex : ExecutionShell)
    (hex : b.execution = some ex) (hns : e.isWorkflowExecutionStarted = false)
    (h : b.processEvent e = .ok b2) :
    ∃ ex2 suffix, b2.execution = some ex2 ∧ ex2.signals = ex.signals ++ suffix := by
  cases e <;>
    simp only [Event.isWorkflowExecutionStarted, Bool.true_eq_false] at hns <;>
    simp only [StateBuilder.processEvent, StateBuilder.modifyExecution,
      StateBuilder.modifyTask, StateBuilder.modifyChildExecution,
      StateBuilder.modifyTimer, hex] at h <;>
    (repeat' split at h) <;>
    (try cases h) <;>
    first
      | exact ⟨_, [], rfl, (List.append_nil _).symm⟩
      | exact ⟨ex, [], hex, (List.append_nil _).symm⟩
      | exact ⟨_, _, rfl, rfl⟩
      | simp_all

theorem processEvents_signals_mono (l : List Event) (b b2 : StateBuilder) (ex : ExecutionShell)
    (hex : b.execution = some ex) (hl : ∀ e ∈ l, e.isWorkflowExecutionStarted = false)
    (h : b.processEvents l = .ok b2) :
    ∃ ex2 suffix, b2.execution = some ex2 ∧ ex2.signals = ex.signals ++ suffix := by
  induction l generalizing b ex with
  | nil =>
      simp only [StateBuilder.processEvents, Except.ok.injEq] at h
      exact ⟨ex, [], h ▸ hex, (List.append_nil _).symm⟩
  | cons e rest ih =>
      simp only [StateBuilder.processEvents] at h
      cases hstep : b.processEvent e with
      | error err => rw [hstep] at h; cases h
      | ok b1 =>
          rw [hstep] at h
          obtain ⟨ex1, suf1, hex1, hsig1⟩ :=
            processEvent_signals_mono b b1 e ex hex (hl e (List.mem_cons_self _ _)) hstep
          obtain ⟨ex2, suf2, hex2, hsig2⟩ :=
            ih b1 ex1 hex1 (fun e2 h2 => hl e2 (List.mem_cons_of_mem _ h2)) h
          exact ⟨ex2, suf1 ++ suf2, hex2, by rw [hsig2, hsig1, List.append_assoc]⟩

theorem processEvent_signal_appends (b : StateBuilder) (ex : ExecutionShell)
    (l sid so : Nat) (nm : String) (inp : Option String)
    (hex : b.execution = some ex) (hl : b.latest_decision_event_id = some l) :
    b.processEvent (.workflowExecutionSignaled sid so nm inp) =
      .ok { b with execution := some { ex with signals := ex.signals ++
        [{ name := nm, received := so, decision_event_id := l, input := inp }] } } := by
  simp [StateBuilder.processEvent, hl, hex]

/-- C5: for every history in which a signal-received event is preceded by at
least one decision-task-completed event (so the builder's latest-decision
scalar holds some value `l` at the moment the signal is folded) and whose
remaining events do not restart the execution, the folded signal entity sits
at the expected position of the snapshot's signal list, has captured exactly
`l`, and its is-new predicate — the source's closure comparing the captured
value against the live scalar — evaluates to true precisely when the
builder's current latest-decision identifier still equals `l`: the predicate
reads live state, not a point-in-time copy.  For the claim's scenario
[decision-complete(id=5), signal(A), decision-complete(id=9)], instantiating
`post := []` gives is-new true (latest still 5) and `post := [id-9 event]`
gives is-new false (latest advanced to 9), the witness below. -/
theorem c5_signal_freshness (pre post : List Event) (sid so : Nat) (nm : String) (inp : Option String)
    (b0 b : StateBuilder) (ex0 ex : ExecutionShell) (l : Nat)
    (h0 : initialBuilder.processEvents pre = .ok b0)
    (hex0 : b0.execution = some ex0)
    (hl : b0.latest_decision_event_id = some l)
    (hpost : ∀ e ∈ post, e.isWorkflowExecutionStarted = false)
    (h : initialBuilder.processEvents
      (pre ++ Event.workflowExecutionSignaled sid so nm inp :: post) = .ok b)
    (hex : b.execution = some ex) :
    ∃ sig, ex.signals.get? ex0.signals.length = some sig ∧
      sig.decision_event_id = l ∧
      (sig.is_new b = true ↔ b.latest_decision_event_id = some l) := by
  have happ := processEvents_append initialBuilder pre
    (Event.workflowExecutionSignaled sid so nm inp :: post)
  rw [h0] at happ
  rw [happ] at h
  have hsig := processEvent_signal_appends b0 ex0 l sid so nm inp hex0 hl
  simp only [StateBuilder.processEvents, hsig] at h
  obtain ⟨ex2, suffix, hex2, hsigs⟩ :=
    processEvents_signals_mono post _ b _ rfl hpost h
  rw [hex] at hex2
  have hexx : ex = ex2 := by injection hex2
  subst hexx
  refine ⟨{ name := nm, received := so, decision_event_id := l, input := inp }, ?_, rfl, ?_⟩
  · rw [hsigs]
    simp only [List.append_assoc, List.singleton_append]
    rw [List.get?_append_right (Nat.le_refl _), Nat.sub_self]
    rfl
  · simp only [SignalState.is_new]
    constructor
    · intro htrue
      exact (beq_iff_eq.mp htrue).symm
    · intro heq
      rw [heq]
      exact beq_self_eq_true _


/-- Witness for C5: the claim's scenario [started(1), decision-complete(id=5),
signal(A), decision-complete(id=9)]; the final latest-decision id is 9, so the
instantiated equivalence makes signal A's is-new predicate false. -/
theorem c5_signal_freshness_witness :
    ∃ sig, c5Shell2.signals.get? c5Shell.signals.length = some sig ∧
      sig.decision_event_id = 5 ∧
      (sig.is_new c5Builder2 = true ↔ c5Builder2.latest_decision_event_id = some 5) :=
  c5_signal_freshness
    [Event.workflowExecutionStarted 1 1 cfg0 none, Event.decisionTaskCompleted 5 2]
    [Event.decisionTaskCompleted 9 4] 6 3 "A" none c5Builder0 c5Builder2 c5Shell c5Shell2 5
    rfl rfl rfl (by decide) rfl rfl

/-! ## Well-formedness of reachable builders and cancel-requested (C7) -/

theorem wellFormed_iff (b : StateBuilder) :
    b.wellFormed = true ↔
      ((∀ ex, b.execution = some ex →
          (∀ i ∈ ex.task_refs, i < b.task_arena.length) ∧
          (∀ i ∈ ex.child_refs, i < b.child_arena.length) ∧
          (∀ i ∈ ex.timer_refs, i < b.timer_arena.length)) ∧
        (∀ p ∈ b.tasks, p.2 < b.task_arena.length) ∧
        (∀ p ∈ b.child_executions, p.2 < b.child_arena.length) ∧
        (∀ p ∈ b.timers, p.2 < b.timer_arena.length)) := by
  cases hex : b.execution with
  | none =>
      simp only [StateBuilder.wellFormed, hex, List.all_eq_true, Bool.and_eq_true,
        decide_eq_true_eq, reduceCtorEq, false_implies, forall_const, true_and]
      tauto
  | some ex =>
      simp only [StateBuilder.wellFormed, hex, List.all_eq_true, Bool.and_eq_true,
        decide_eq_true_eq, Option.some.injEq]
      constructor
      · intro hh
        refine ⟨?_, hh.1.1.2, hh.1.2, hh.2⟩
        intro ex2 he2
        subst he2
        exact ⟨hh.1.1.1.1.1, hh.1.1.1.1.2, hh.1.1.1.2⟩
      · intro hh
        obtain ⟨h1, h2, h3⟩ := hh.1 ex rfl
        exact ⟨⟨⟨⟨⟨h1, h2⟩, h3⟩, hh.2.1⟩, hh.2.2.1⟩, hh.2.2.2⟩

theorem processEvent_wellFormed (b b2 : StateBuilder) (e : Event)
    (h : b.processEvent e = .ok b2) (hwf : b.wellFormed = true) :
    b2.wellFormed = true := by
  rw [wellFormed_iff] at hwf ⊢
  obtain ⟨hshell, ht, hc, hm⟩ := hwf
  cases e
  case workflowExecutionStarted id o cf inp =>
      simp only [StateBuilder.processEvent] at h
      cases h
      refine ⟨?_, ht, hc, hm⟩
      intro ex2 hex2
      injection hex2 with hex2
      subst hex2
      exact ⟨by simp, by simp, by simp⟩
  case decisionTaskCompleted id o =>
      simp only [StateBuilder.processEvent] at h
      cases h
      exact ⟨hshell, ht, hc, hm⟩
  case startChildWorkflowExecutionInitiated id o w cf inp ctl =>
      simp only [StateBuilder.processEvent] at h
      cases h
      exact ⟨hshell, ht, hc, hm⟩
  case unrecognised id o =>
      simp only [StateBuilder.processEvent] at h
      cases h
      exact ⟨hshell, ht, hc, hm⟩
  case activityTaskScheduled id o tid act cf inp ctl =>
      simp only [StateBuilder.processEvent] at h
      cases hexe : b.execution with
      | none => rw [hexe] at h; cases h
      | some ex =>
          rw [hexe] at h
          cases h
          obtain ⟨hta, hch, hti⟩ := hshell ex hexe
          refine ⟨?_, ?_, hc, hm⟩
          · intro ex2 hex2
            injection hex2 with hex2
            subst hex2
            refine ⟨?_, hch, hti⟩
            intro i hi
            simp only [List.length_append, List.length_singleton]
            rcases List.mem_append.mp hi with hi | hi
            · exact Nat.lt_succ_of_lt (hta i hi)
            · rw [List.mem_singleton.mp hi]; exact Nat.lt_succ_self _
          · intro p hp
            simp only [List.length_append, List.length_singleton]
            rcases List.mem_cons.mp hp with hp | hp
            · rw [hp]; exact Nat.lt_succ_self _
            · exact Nat.lt_succ_of_lt (ht p hp)
  case timerStarted id o tid dur ctl =>
      simp only [StateBuilder.processEvent] at h
      cases hexe : b.execution with
      | none => rw [hexe] at h; cases h
      | some ex =>
          rw [hexe] at h
          cases h
          obtain ⟨hta, hch, hti⟩ := hshell ex hexe
          refine ⟨?_, ht, hc, ?_⟩
          · intro ex2 hex2
            injection hex2 with hex2
            subst hex2
            refine ⟨hta, hch, ?_⟩
            intro i hi
            simp only [List.length_append, List.length_singleton]
            rcases List.mem_append.mp hi with hi | hi
            · exact Nat.lt_succ_of_lt (hti i hi)
            · rw [List.mem_singleton.mp hi]; exact Nat.lt_succ_self _
          · intro p hp
            simp only [List.length_append, List.length_singleton]
            rcases List.mem_cons.mp hp with hp | hp
            · rw [hp]; exact Nat.lt_succ_self _
            · exact Nat.lt_succ_of_lt (hm p hp)
  case childWorkflowExecutionStarted id o backref x =>
      simp only [StateBuilder.processEvent] at h
      cases hfil : b.child_execution_initiation_events.filter fun r => r.id == backref with
      | nil => rw [hfil] at h; cases h
      | cons ie rest =>
          cases rest with
          | cons ie2 rest2 => rw [hfil] at h; cases h
          | nil =>
              rw [hfil] at h
              cases hexe : b.execution with
              | none => rw [hexe] at h; cases h
              | some ex =>
                  rw [hexe] at h
                  cases h
                  obtain ⟨hta, hch, hti⟩ := hshell ex hexe
                  refine ⟨?_, ht, ?_, hm⟩
                  · intro ex2 hex2
                    injection hex2 with hex2
                    subst hex2
                    refine ⟨hta, ?_, hti⟩
                    intro i hi
                    simp only [List.length_append, List.length_singleton]
                    rcases List.mem_append.mp hi with hi | hi
                    · exact Nat.lt_succ_of_lt (hch i hi)
                    · rw [List.mem_singleton.mp hi]; exact Nat.lt_succ_self _
                  · intro p hp
                    simp only [List.length_append, List.length_singleton]
                    rcases List.mem_cons.mp hp with hp | hp
                    · rw [hp]; exact Nat.lt_succ_self _
                    · exact Nat.lt_succ_of_lt (hc p hp)
  case activityTaskCancelRequested id o tid =>
      cases hexe : b.execution with
      | none => simp [StateBuilder.processEvent, hexe] at h
      | some ex =>
          simp only [StateBuilder.processEvent, hexe] at h
          cases hfil : ex.task_refs.filter fun i =>
              ((b.task_arena.get? i).map TaskState.id) == some tid with
          | nil => rw [hfil] at h; cases h
          | cons j rest =>
              cases rest with
              | cons j2 rest2 => rw [hfil] at h; cases h
              | nil =>
                  rw [hfil] at h
                  cases h
                  simp only [listModify_length]
                  refine ⟨?_, ht, hc, hm⟩
                  intro ex2 hex2
                  injection hex2 with hex2
                  subst hex2
                  exact hshell ex hexe
  case workflowExecutionSignaled id o nm inp =>
      simp only [StateBuilder.processEvent] at h
      cases hl : b.latest_decision_event_id with
      | none => rw [hl] at h; cases h
      | some l =>
          rw [hl] at h
          cases hexe : b.execution with
          | none => rw [hexe] at h; cases h
          | some ex =>
              rw [hexe] at h
              cases h
              refine ⟨?_, ht, hc, hm⟩
              intro ex2 hex2
              injection hex2 with hex2
              subst hex2
              exact hshell ex hexe
  all_goals (
    simp only [StateBuilder.processEvent, StateBuilder.modifyExecution,
      StateBuilder.modifyTask, StateBuilder.modifyChildExecution,
      StateBuilder.modifyTimer] at h
    (repeat' split at h)
    all_goals (try cases h)
    all_goals simp only [listModify_length]
    all_goals (
      first
      | exact ⟨hshell, ht, hc, hm⟩
      | (rename_i ex hexe
         refine ⟨?_, ht, hc, hm⟩
         intro ex2 hex2
         injection hex2 with hex2
         subst hex2
         exact hshell ex hexe)))

theorem processEvents_wellFormed (l : List Event) (b b2 : StateBuilder)
    (h : b.processEvents l = .ok b2) (hwf : b.wellFormed = true) :
    b2.wellFormed = true := by
  induction l generalizing b with
  | nil =>
      simp only [StateBuilder.processEvents, Except.ok.injEq] at h
      exact h ▸ hwf
  | cons e rest ih =>
      simp only [StateBuilder.processEvents] at h
      cases he : b.processEvent e with
      | error err => rw [he] at h; cases h
      | ok b1 =>
          rw [he] at h
          exact ih b1 h (processEvent_wellFormed b b1 e he hwf)

theorem buildBuilder_wellFormed (l : List Event) (b : StateBuilder)
    (h : buildBuilder l = .ok b) : b.wellFormed = true :=
  processEvents_wellFormed l initialBuilder b h rfl



theorem filterMap_get?_length {α : Type} (refs : List Nat) (arena : List α)
    (hin : ∀ i ∈ refs, i < arena.length) :
    (refs.filterMap fun i => arena.get? i).length = refs.length := by
  induction refs with
  | nil => rfl
  | cons i rest ih =>
      obtain ⟨t, ht⟩ : ∃ t, arena.get? i = some t :=
        ⟨arena.get ⟨i, hin i (List.mem_cons_self _ _)⟩, List.get?_eq_get _⟩
      rw [List.filterMap_cons, ht]
      simp only [List.length_cons]
      rw [ih fun j hj => hin j (List.mem_cons_of_mem _ hj)]

theorem filterMap_get?_get? {α : Type} (refs : List Nat) (arena : List α)
    (hin : ∀ i ∈ refs, i < arena.length) (j : Nat) :
    (refs.filterMap fun i => arena.get? i).get? j =
      (refs.get? j).bind fun i => arena.get? i := by
  induction refs generalizing j with
  | nil => simp
  | cons i rest ih =>
      obtain ⟨t, ht⟩ : ∃ t, arena.get? i = some t :=
        ⟨arena.get ⟨i, hin i (List.mem_cons_self _ _)⟩, List.get?_eq_get _⟩
      rw [List.filterMap_cons, ht]
      cases j with
      | zero =>
          rw [List.get?_cons_zero, List.get?_cons_zero]
          exact ht.symm
      | succ m =>
          rw [List.get?_cons_succ, List.get?_cons_succ]
          exact ih (fun j hj => hin j (List.mem_cons_of_mem _ hj)) m

theorem refs_filter_count (refs : List Nat) (arena : List TaskState) (tid : String)
    (hin : ∀ i ∈ refs, i < arena.length) :
    (refs.filter fun i => ((arena.get? i).map TaskState.id) == some tid).length =
      ((refs.filterMap fun i => arena.get? i).filter fun t => t.id == tid).length := by
  induction refs with
  | nil => rfl
  | cons i rest ih =>
      obtain ⟨t, ht⟩ : ∃ t, arena.get? i = some t :=
        ⟨arena.get ⟨i, hin i (List.mem_cons_self _ _)⟩, List.get?_eq_get _⟩
      have ih2 := ih fun j hj => hin j (List.mem_cons_of_mem _ hj)
      have hpred : (((arena.get? i).map TaskState.id) == some tid) = (t.id == tid) := by
        rw [ht]; rfl
      simp only [List.filterMap_cons, ht]
      cases hb : t.id == tid with
      | true =>
          rw [List.filter_cons_of_pos (by rw [hpred]; exact hb)]
          rw [@List.filter_cons_of_pos _ (fun t2 => t2.id == tid) t _ hb]
          simp only [List.length_cons]
          rw [ih2]
      | false =>
          rw [List.filter_cons_of_neg (by rw [hpred]; simp [hb])]
          rw [@List.filter_cons_of_neg _ (fun t2 => t2.id == tid) t _ (by simp [hb])]
          exact ih2

/-- C7: for every builder state reached by folding a history prefix, with the
snapshot present, processing an activity-task cancel-requested event carrying
caller-assigned task identifier `tid` behaves as follows: if exactly one task
state in the snapshot has that identifier, processing succeeds, the task list
keeps its length, every task keeps its position, identifier and lifecycle
status, the matching task's cancel-requested flag is set to true, and every
non-matching task is completely unchanged; if zero or more than one task
states match, processing fails with `LookupError(tid)` (ambiguous
correlation). -/
theorem c7_cancel_requested_by_task_id (pre : List Event) (b : StateBuilder) (ex : ExecutionShell)
    (s : ExecutionState) (eid eo : Nat) (tid : String)
    (hb : initialBuilder.processEvents pre = .ok b)
    (hex : b.execution = some ex)
    (hsnap : b.snapshot = some s) :
    ((s.tasks.filter fun t => t.id == tid).length = 1 →
      ∃ b2 s2, b.processEvent (.activityTaskCancelRequested eid eo tid) = .ok b2 ∧
        b2.snapshot = some s2 ∧ s2.tasks.length = s.tasks.length ∧
        ∀ j2 t, s.tasks.get? j2 = some t →
          ∃ t2, s2.tasks.get? j2 = some t2 ∧ t2.status = t.status ∧ t2.id = t.id ∧
            (t.id = tid → t2.cancel_requested = true) ∧
            (t.id ≠ tid → t2 = t)) ∧
    ((s.tasks.filter fun t => t.id == tid).length ≠ 1 →
      b.processEvent (.activityTaskCancelRequested eid eo tid) =
        .error (.lookupErrorStr tid)) := by
  have hwf := processEvents_wellFormed pre initialBuilder b hb rfl
  rw [wellFormed_iff] at hwf
  have hta := (hwf.1 ex hex).1
  have hsval : s = {
      status := ex.status
      configuration := ex.configuration
      started := ex.started
      ended := ex.ended
      tasks := ex.task_refs.filterMap fun i => b.task_arena.get? i
      child_executions := ex.child_refs.filterMap fun i => b.child_arena.get? i
      timers := ex.timer_refs.filterMap fun i => b.timer_arena.get? i
      signals := ex.signals
      input := ex.input
      cancel_requested := ex.cancel_requested
      result := ex.result
      failure_reason := ex.failure_reason
      stop_details := ex.stop_details } := by
    simp only [StateBuilder.snapshot, hex, Option.map_some'] at hsnap
    injection hsnap with hh
    exact hh.symm
  have hstasks : s.tasks = ex.task_refs.filterMap fun i => b.task_arena.get? i := by
    rw [hsval]
  have hcount : (ex.task_refs.filter fun i =>
        ((b.task_arena.get? i).map TaskState.id) == some tid).length =
      (s.tasks.filter fun t => t.id == tid).length := by
    rw [hstasks]
    exact refs_filter_count ex.task_refs b.task_arena tid hta
  constructor
  · intro hone
    have hflen : (ex.task_refs.filter fun i =>
        ((b.task_arena.get? i).map TaskState.id) == some tid).length = 1 := by
      rw [hcount]; exact hone
    obtain ⟨j, hfil⟩ := List.length_eq_one.mp hflen
    have hstep : b.processEvent (.activityTaskCancelRequested eid eo tid) =
        .ok { b with task_arena := listModify b.task_arena j fun t => { t with cancel_requested := true } } := by
      simp only [StateBuilder.processEvent, hex, hfil]
    have hta2 : ∀ i ∈ ex.task_refs,
        i < (listModify b.task_arena j fun t => { t with cancel_requested := true }).length := by
      intro i hi
      rw [listModify_length]
      exact hta i hi
    refine ⟨_, {
        status := ex.status
        configuration := ex.configuration
        started := ex.started
        ended := ex.ended
        tasks := ex.task_refs.filterMap fun i => (listModify b.task_arena j fun t => { t with cancel_requested := true }).get? i
        child_executions := ex.child_refs.filterMap fun i => b.child_arena.get? i
        timers := ex.timer_refs.filterMap fun i => b.timer_arena.get? i
        signals := ex.signals
        input := ex.input
        cancel_requested := ex.cancel_requested
        result := ex.result
        failure_reason := ex.failure_reason
        stop_details := ex.stop_details },
      hstep, ?_, ?_, ?_⟩
    · simp only [StateBuilder.snapshot, hex, Option.map_some']
    · simp only [hstasks]
      rw [filterMap_get?_length ex.task_refs _ hta2,
        filterMap_get?_length ex.task_refs b.task_arena hta]
    · intro j2 t hjt
      rw [hstasks, filterMap_get?_get? ex.task_refs b.task_arena hta j2] at hjt
      cases hr : ex.task_refs.get? j2 with
      | none => rw [hr] at hjt; cases hjt
      | some r =>
          rw [hr] at hjt
          simp only [Option.some_bind] at hjt
          have hget2 : (ex.task_refs.filterMap fun i => (listModify b.task_arena j
              fun t => { t with cancel_requested := true }).get? i).get? j2 =
              (listModify b.task_arena j fun t => { t with cancel_requested := true }).get? r := by
            rw [filterMap_get?_get? ex.task_refs _ hta2 j2, hr]
            simp only [Option.some_bind]
          by_cases hrj : r = j
          · subst hrj
            have hj_mem : r ∈ ex.task_refs.filter fun i =>
                ((b.task_arena.get? i).map TaskState.id) == some tid := by
              rw [hfil]; exact List.mem_singleton_self _
            have hpr := List.of_mem_filter hj_mem
            rw [hjt] at hpr
            have htid : t.id = tid := beq_iff_eq.mp hpr
            refine ⟨{ t with cancel_requested := true }, ?_, rfl, rfl, fun _ => rfl,
              fun hne => absurd htid hne⟩
            rw [hget2, listModify_get?, if_pos rfl, hjt]
            rfl
          · have hnm : t.id ≠ tid := by
              intro htid
              have hr_mem : r ∈ ex.task_refs := List.get?_mem hr
              have : r ∈ ex.task_refs.filter fun i =>
                  ((b.task_arena.get? i).map TaskState.id) == some tid := by
                rw [List.mem_filter]
                refine ⟨hr_mem, ?_⟩
                rw [hjt]
                simpa using htid
              rw [hfil] at this
              exact hrj (List.mem_singleton.mp this)
            refine ⟨t, ?_, rfl, rfl, fun htid => absurd htid hnm, fun _ => rfl⟩
            rw [hget2, listModify_get?, if_neg hrj, hjt]
  · intro hne
    have hflen : (ex.task_refs.filter fun i =>
        ((b.task_arena.get? i).map TaskState.id) == some tid).length ≠ 1 := by
      rw [hcount]; exact hne
    cases hfil : ex.task_refs.filter fun i =>
        ((b.task_arena.get? i).map TaskState.id) == some tid with
    | nil => simp only [StateBuilder.processEvent, hex, hfil]
    | cons j rest =>
        cases rest with
        | nil => exact absurd (by rw [hfil]; rfl) hflen
        | cons j2 rest2 => simp only [StateBuilder.processEvent, hex, hfil]


/-- Witness for C7: the builder holding the single scheduled task "t1";
the cancel-requested event carrying "t1" matches exactly one task. -/
theorem c7_cancel_requested_by_task_id_witness :
    ((c7State.tasks.filter fun t => t.id == "t1").length = 1 →
      ∃ b2 s2, c7Builder.processEvent (.activityTaskCancelRequested 3 3 "t1") = .ok b2 ∧
        b2.snapshot = some s2 ∧ s2.tasks.length = c7State.tasks.length ∧
        ∀ j2 t, c7State.tasks.get? j2 = some t →
          ∃ t2, s2.tasks.get? j2 = some t2 ∧ t2.status = t.status ∧ t2.id = t.id ∧
            (t.id = "t1" → t2.cancel_requested = true) ∧
            (t.id ≠ "t1" → t2 = t)) ∧
    ((c7State.tasks.filter fun t => t.id == "t1").length ≠ 1 →
      c7Builder.processEvent (.activityTaskCancelRequested 3 3 "t1") =
        .error (.lookupErrorStr "t1")) :=
  c7_cancel_requested_by_task_id
    [Event.workflowExecutionStarted 1 1 cfg0 none,
     Event.activityTaskScheduled 2 2 "t1" act0 tcfg0 none none]
    c7Builder c7Shell c7State 3 3 "t1" rfl rfl rfl

/-! ## Child-execution promotion (C4) -/

theorem initiationRecords_append (l1 l2 : List Event) :
    initiationRecords (l1 ++ l2) = initiationRecords l1 ++ initiationRecords l2 := by
  induction l1 with
  | nil => rfl
  | cons e rest ih =>
      simp only [List.cons_append, initiationRecords, List.append_assoc]
      exact congrArg _ ih

/-- C4: two-phase child-execution promotion.  For every history of the form
`pre ++ [initiated(id=i, workflow=W, configuration=C, input=I)] ++ mid` whose
fold succeeds, where no other event in `pre` or `mid` is an initiation with
identifier `i` and no child-started event back-references `i`: before the
child-started event is folded the correlation table (through which the
snapshot's child-execution entries are resolved) has no binding for `i`; after
folding a started event with back-reference `i`, execution identifier X and
timestamp so, the snapshot's child-execution list gains exactly one entity at
the end whose workflow is W, configuration is C, input is I, execution
identifier is X and start time is so — data taken from the pending initiation
record, not from the started event — the table now binds `i` to it, and a
later follow-up event (e.g. completed) back-referencing `i` resolves and
updates that same entity in place. -/
theorem c4_child_promotion (pre mid : List Event) (i io : Nat) (W : WorkflowId)
    (C : ExecutionConfiguration) (I ctl : Option String) (sid so : Nat) (X : ExecutionId)
    (b : StateBuilder) (ex : ExecutionShell)
    (hfold : initialBuilder.processEvents
        (pre ++ Event.startChildWorkflowExecutionInitiated i io W C I ctl :: mid) = .ok b)
    (hex : b.execution = some ex)
    (huniq : ∀ e ∈ pre ++ mid, e.registersInitiation ≠ some i)
    (hnostart : ∀ e ∈ pre ++ mid, e.registersChildExecution ≠ some i) :
    b.child_executions.lookup i = none ∧
    ∃ b2 s s2 ent,
      b.snapshot = some s ∧
      b.processEvent (.childWorkflowExecutionStarted sid so i X) = .ok b2 ∧
      b2.child_executions.lookup i = some b.child_arena.length ∧
      b2.snapshot = some s2 ∧
      s2.child_executions = s.child_executions ++ [ent] ∧
      ent.workflow = W ∧ ent.configuration = C ∧ ent.input = I ∧
      ent.execution = X ∧ ent.started = so ∧ ent.status = ExecutionStatus.started ∧
      ent.decider_control = ctl ∧
      ∀ cid co r, ∃ b3 s3,
        b2.processEvent (.childWorkflowExecutionCompleted cid co i r) = .ok b3 ∧
        b3.snapshot = some s3 ∧
        s3.child_executions = s.child_executions ++
          [{ ent with status := ExecutionStatus.completed, ended := some co, result := r }] := by
  have hwf := processEvents_wellFormed _ initialBuilder b hfold rfl
  rw [wellFormed_iff] at hwf
  have hch := (hwf.1 ex hex).2.1
  have hnone : b.child_executions.lookup i = none := by
    have hall : ∀ e ∈ pre ++ Event.startChildWorkflowExecutionInitiated i io W C I ctl :: mid,
        e.registersChildExecution ≠ some i := by
      intro e he
      rcases List.mem_append.mp he with he | he
      · exact hnostart e (List.mem_append_left _ he)
      · rcases List.mem_cons.mp he with he | he
        · subst he; simp [Event.registersChildExecution]
        · exact hnostart e (List.mem_append_right _ he)
    rw [processEvents_childExecutions_lookup _ initialBuilder b i hfold hall]
    rfl
  have hpend := processEvents_pending _ initialBuilder b hfold
  have hfilpre : (initiationRecords pre).filter (fun r => r.id == i) = [] :=
    initiationRecords_filter_nil pre i fun e he => huniq e (List.mem_append_left _ he)
  have hfilmid : (initiationRecords mid).filter (fun r => r.id == i) = [] :=
    initiationRecords_filter_nil mid i fun e he => huniq e (List.mem_append_right _ he)
  have hfil : b.child_execution_initiation_events.filter (fun r => r.id == i) =
      [{ id := i, occured := io, workflow := W, execution_configuration := C,
         execution_input := I, control := ctl }] := by
    rw [hpend, initiationRecords_append]
    show (([] : List InitiationEvent) ++ _).filter _ = _
    rw [List.nil_append, List.filter_append, hfilpre, List.nil_append, initiationRecords,
      Event.initiationRecord, List.filter_append, hfilmid, List.append_nil]
    rw [List.filter_cons_of_pos (by simp), List.filter_nil]
  have hstep : b.processEvent (.childWorkflowExecutionStarted sid so i X) =
      .ok { b with
        execution := some { ex with child_refs := ex.child_refs ++ [b.child_arena.length] }
        child_arena := b.child_arena ++
          [{ execution := X, workflow := W, status := .started, configuration := C,
             started := so, input := I, decider_control := ctl }]
        child_executions := (i, b.child_arena.length) :: b.child_executions } := by
    simp only [StateBuilder.processEvent, hfil, hex]
  have hsnapb : b.snapshot = some {
      status := ex.status
      configuration := ex.configuration
      started := ex.started
      ended := ex.ended
      tasks := ex.task_refs.filterMap fun j => b.task_arena.get? j
      child_executions := ex.child_refs.filterMap fun j => b.child_arena.get? j
      timers := ex.timer_refs.filterMap fun j => b.timer_arena.get? j
      signals := ex.signals
      input := ex.input
      cancel_requested := ex.cancel_requested
      result := ex.result
      failure_reason := ex.failure_reason
      stop_details := ex.stop_details } := by
    simp only [StateBuilder.snapshot, hex, Option.map_some']
  refine ⟨hnone, _, _, _,
    { execution := X, workflow := W, status := .started, configuration := C,
      started := so, input := I, decider_control := ctl },
    hsnapb, hstep, ?_, rfl, ?_, rfl, rfl, rfl, rfl, rfl, rfl, rfl, ?_⟩
  · simp [List.lookup_cons]
  · show (ex.child_refs ++ [b.child_arena.length]).filterMap
        (fun j => (b.child_arena ++ [({ execution := X, workflow := W, status := .started, configuration := C, started := so, input := I, decider_control := ctl } : ChildExecutionState)]).get? j) =
      (ex.child_refs.filterMap fun j => b.child_arena.get? j) ++ [({ execution := X, workflow := W, status := .started, configuration := C, started := so, input := I, decider_control := ctl } : ChildExecutionState)]
    exact append_refs_keys ex.child_refs b.child_arena _ hch
  · intro cid co r
    have hlk2 : ((i, b.child_arena.length) :: b.child_executions).lookup i =
        some b.child_arena.length := by simp [List.lookup_cons]
    have hstep3 : StateBuilder.processEvent
        { b with
          execution := some { ex with child_refs := ex.child_refs ++ [b.child_arena.length] }
          child_arena := b.child_arena ++
            [{ execution := X, workflow := W, status := .started, configuration := C,
               started := so, input := I, decider_control := ctl }]
          child_executions := (i, b.child_arena.length) :: b.child_executions }
        (.childWorkflowExecutionCompleted cid co i r) =
        .ok { b with
          execution := some { ex with child_refs := ex.child_refs ++ [b.child_arena.length] }
          child_arena := listModify (b.child_arena ++
            [{ execution := X, workflow := W, status := .started, configuration := C,
               started := so, input := I, decider_control := ctl }])
            b.child_arena.length
            (fun c => { c with status := .completed, ended := some co, result := r })
          child_executions := (i, b.child_arena.length) :: b.child_executions } := by
      simp only [StateBuilder.processEvent, StateBuilder.modifyChildExecution, hlk2]
    refine ⟨_, _, hstep3, rfl, ?_⟩
    show (ex.child_refs ++ [b.child_arena.length]).filterMap
        (fun j => (listModify (b.child_arena ++ [({ execution := X, workflow := W, status := .started, configuration := C, started := so, input := I, decider_control := ctl } : ChildExecutionState)])
          b.child_arena.length
          (fun c => { c with status := .completed, ended := some co, result := r })).get? j) =
      (ex.child_refs.filterMap fun j => b.child_arena.get? j) ++ [({ execution := X, workflow := W, status := .completed, configuration := C, started := so, ended := some co, input := I, result := r, decider_control := ctl } : ChildExecutionState)]
    rw [List.filterMap_append]
    congr 1
    · apply List.filterMap_congr
      intro j hj
      have hjlt : j < b.child_arena.length := hch j hj
      rw [listModify_get?, if_neg (Nat.ne_of_lt hjlt), List.get?_append hjlt]
    · simp only [List.filterMap_cons, List.filterMap_nil]
      rw [listModify_get?, if_pos rfl, List.get?_concat_length]
      rfl


/-- Witness for C4: history [started(1), child-initiated(2)], then a
child-started event with back-reference 2. -/
theorem c4_child_promotion_witness :
    c4Builder.child_executions.lookup 2 = none ∧
    ∃ b2 s s2 ent,
      c4Builder.snapshot = some s ∧
      c4Builder.processEvent (.childWorkflowExecutionStarted 3 3 2 xid0) = .ok b2 ∧
      b2.child_executions.lookup 2 = some c4Builder.child_arena.length ∧
      b2.snapshot = some s2 ∧
      s2.child_executions = s.child_executions ++ [ent] ∧
      ent.workflow = wf0 ∧ ent.configuration = cfg0 ∧ ent.input = some "ci" ∧
      ent.execution = xid0 ∧ ent.started = 3 ∧ ent.status = ExecutionStatus.started ∧
      ent.decider_control = none ∧
      ∀ cid co r, ∃ b3 s3,
        b2.processEvent (.childWorkflowExecutionCompleted cid co 2 r) = .ok b3 ∧
        b3.snapshot = some s3 ∧
        s3.child_executions = s.child_executions ++
          [{ ent with status := ExecutionStatus.completed, ended := some co, result := r }] :=
  c4_child_promotion [Event.workflowExecutionStarted 1 1 cfg0 none] [] 2 2 wf0 cfg0
    (some "ci") none 3 3 xid0 c4Builder c4Shell rfl rfl (by decide) (by decide)

end SwfTyped


